import Mathlib

/-!
Verification development for the Rockport vehicle-dynamics simulator and its
performance-calibration controller.

The JavaScript sources (`carPhysics.js`, `main.js`) are shallowly embedded
here: JavaScript numbers are modelled as real numbers (idealised real
arithmetic), per-tick mutation of the `Car` instance becomes a pure state
transformer on `CarState`, and the wall clock (`Date.now()`) becomes an
explicit oracle `ℕ → ℝ` threaded through the calibration code by call index.
Fields that the simulation writes but never reads back (the per-tire
`combinedForce` / `hasTraction` / `normalLoad` debug outputs) are omitted from
the state, as are rendering-only members.
-/

noncomputable section

open scoped Classical

namespace Rockport

/-- Embeds `clamp(value, min, max)` from `carPhysics.js`:
`Math.max(min, Math.min(max, value))`. -/
def clamp (value lo hi : ℝ) : ℝ := max lo (min hi value)

/-- Embeds `clampToRange(value, min, max)` from `main.js` (same body as `clamp`). -/
def clampToRange (value lo hi : ℝ) : ℝ := max lo (min hi value)

/-- Embeds `sign(value)` from `carPhysics.js` (also the behaviour of `Math.sign`
on finite numbers). -/
def jsSign (value : ℝ) : ℝ := if value > 0 then 1 else if value < 0 then -1 else 0

/-- JavaScript `Math.trunc`: round toward zero. -/
def jsTrunc (r : ℝ) : ℤ := if 0 ≤ r then ⌊r⌋ else ⌈r⌉

/-- The JavaScript remainder operator `x % y` on finite operands:
`x - y * Math.trunc(x / y)` (the result carries the sign of the dividend). -/
def jsRem (x y : ℝ) : ℝ := x - y * (jsTrunc (x / y) : ℝ)

/-- 2-D vector (`createVector` in `carPhysics.js`). -/
structure Vec2 where
  x : ℝ
  y : ℝ

namespace Vec2

theorem ext_mk {a b c d : ℝ} (hx : a = c) (hy : b = d) :
    Vec2.mk a b = Vec2.mk c d := by rw [hx, hy]

/-- Embeds `addScaledInPlace(target, source, scale)`. -/
def addScaled (t s : Vec2) (c : ℝ) : Vec2 := ⟨t.x + s.x * c, t.y + s.y * c⟩

/-- Embeds `scaleInPlace(vector, scale)`. -/
def scale (v : Vec2) (c : ℝ) : Vec2 := ⟨v.x * c, v.y * c⟩

/-- Embeds `length(vector)` (`Math.hypot`). -/
def len (v : Vec2) : ℝ := Real.sqrt (v.x ^ 2 + v.y ^ 2)

/-- Embeds `dot(a, b)`. -/
def dot (a b : Vec2) : ℝ := a.x * b.x + a.y * b.y

/-- Embeds `normalize(vector)`: zero vector when the length is under `1e-9`. -/
def normalize (v : Vec2) : Vec2 :=
  if len v < 1 / 1000000000 then ⟨0, 0⟩ else ⟨v.x / len v, v.y / len v⟩

end Vec2

/-- Gravitational acceleration constant `G` from `carPhysics.js`. -/
def gravity : ℝ := 9.81

/-- Embeds `AIR_DENSITY` from `carPhysics.js`. -/
def airDensity : ℝ := 1.225

/-- Drive types recognised by the `Car` constructor (`config.driveType`
compared case-insensitively against `"FWD"` / `"AWD"`, anything else gets the
rear-drive split). -/
inductive DriveType where
  | FWD
  | RWD
  | AWD
deriving DecidableEq

/-- Per-wheel quadruple in source order `[FL, FR, RL, RR]`. -/
structure Wheel4 where
  fl : ℝ
  fr : ℝ
  rl : ℝ
  rr : ℝ

/-- Embeds `CarConfig` after the `Car` constructor's `{...defaultCarConfig(), ...config}`
merge: every field present.  `revLimiterRpm` models
`config.revLimiterRpm ?? 7000` resolved at construction / spec-mapping time.
`tireLateralGrips` keeps the optional config field (`null` becomes `none`). -/
structure CarConfig where
  massKg : ℝ
  driveType : DriveType
  gearRatios : List ℝ
  finalDriveRatio : ℝ
  horsepower : ℝ
  peakTorqueNm : ℝ
  brakeHorsepower : ℝ
  dragCoefficient : ℝ
  downforceCoefficient : ℝ
  frontalAreaM2 : ℝ
  wheelRadiusM : ℝ
  tireGrips : List ℝ
  tireLateralGrips : Option (List ℝ)
  tireLateralGripFactor : ℝ
  brakeTorquePerWheelNm : List ℝ
  brakeBiasFront : ℝ
  wheelbaseM : ℝ
  cgHeightM : ℝ
  trackWidthM : ℝ
  frontWeightDistribution : ℝ
  drivetrainEfficiency : ℝ
  rollingResistanceCoeff : ℝ
  revLimiterRpm : ℝ

/-- Embeds `defaultCarConfig()` from `carPhysics.js` (with the constructor's
`revLimiterRpm ?? 7000` fallback folded in). -/
def defaultCarConfig : CarConfig where
  massKg := 1450
  driveType := .RWD
  gearRatios := [0.0, 3.54, 2.12, 1.49, 1.21, 1.0, 0.84]
  finalDriveRatio := 3.42
  horsepower := 420
  peakTorqueNm := 530
  brakeHorsepower := 360
  dragCoefficient := 0.32
  downforceCoefficient := 1.1
  frontalAreaM2 := 2.2
  wheelRadiusM := 0.32
  tireGrips := [1.05, 1.05, 1.1, 1.1]
  tireLateralGrips := none
  tireLateralGripFactor := 1.12
  brakeTorquePerWheelNm := [4200, 4200, 3200, 3200]
  brakeBiasFront := 0.6
  wheelbaseM := 2.8
  cgHeightM := 0.55
  trackWidthM := 1.55
  frontWeightDistribution := 0.52
  drivetrainEfficiency := 0.9
  rollingResistanceCoeff := 0.015
  revLimiterRpm := 7000

namespace CarConfig

/-- Embeds `this.idleRpm = 900` in the `Car` constructor. -/
def idleRpm : ℝ := 900

/-- Embeds `this.peakRpm` from the `Car` constructor:
`max(2500, hp·745.7/(peakTorque+1e-6)·60/(2π))`. -/
def peakRpm (cfg : CarConfig) : ℝ :=
  max 2500 ((cfg.horsepower * 745.7 / (cfg.peakTorqueNm + 1 / 1000000)) * (60 / (2 * Real.pi)))

/-- Embeds `this.redlineRpm` after the constructor's rev-limiter adjustment
(`min(peakRpm·1.15, limiter·0.995)` when the limiter is positive). -/
def redlineRpm (cfg : CarConfig) : ℝ :=
  if 0 < cfg.revLimiterRpm then min (cfg.peakRpm * 1.15) (cfg.revLimiterRpm * 0.995)
  else cfg.peakRpm * 1.15

/-- Embeds `this.upshiftRpm` after the constructor's rev-limiter adjustment.
The constructor first sets `upshift = (peak·1.15)·0.95` and then takes
`min(upshift, limiter·0.97)`. -/
def upshiftRpm (cfg : CarConfig) : ℝ :=
  if 0 < cfg.revLimiterRpm then min (cfg.peakRpm * 1.15 * 0.95) (cfg.revLimiterRpm * 0.97)
  else cfg.peakRpm * 1.15 * 0.95

/-- Embeds `this.downshiftRpm`: `peakRpm·0.6`, replaced by `upshift·0.55` when it
would sit at or above the (limiter-adjusted) upshift threshold. -/
def downshiftRpm (cfg : CarConfig) : ℝ :=
  if 0 < cfg.revLimiterRpm then
    if cfg.peakRpm * 0.6 ≥ cfg.upshiftRpm then cfg.upshiftRpm * 0.55 else cfg.peakRpm * 0.6
  else cfg.peakRpm * 0.6

/-- Embeds `this.lf = wheelbase · frontWeightDistribution`. -/
def lf (cfg : CarConfig) : ℝ := cfg.wheelbaseM * cfg.frontWeightDistribution

/-- Embeds `this.lr = wheelbase − lf`. -/
def lr (cfg : CarConfig) : ℝ := cfg.wheelbaseM - cfg.lf

/-- Embeds `this.inertia = m·(wheelbase² + track²)/12`. -/
def inertia (cfg : CarConfig) : ℝ :=
  cfg.massKg * (cfg.wheelbaseM ^ 2 + cfg.trackWidthM ^ 2) / 12

/-- Embeds `this.reverseGearRatio = |gearRatios[firstDriveIndex]|` where
`firstDriveIndex` is 1 when more than one ratio exists, else 0 (missing entry
coalesces to 0 via `?? 0`). -/
def reverseGearRatio (cfg : CarConfig) : ℝ :=
  |cfg.gearRatios.getD (if 1 < cfg.gearRatios.length then 1 else 0) 0|

/-- Constructor drive split: front fraction (FWD 1, AWD 0.45, otherwise 0). -/
def driveSplitFront (cfg : CarConfig) : ℝ :=
  match cfg.driveType with
  | .FWD => 1
  | .AWD => 0.45
  | .RWD => 0

/-- Constructor drive split: rear fraction (FWD 0, AWD 0.55, otherwise 1). -/
def driveSplitRear (cfg : CarConfig) : ℝ :=
  match cfg.driveType with
  | .FWD => 0
  | .AWD => 0.55
  | .RWD => 1

/-- Embeds `this.longitudinalGripCoeffs`: the four entries of `config.tireGrips`
(the constructor copies the array; the default is used when the field is not
an array, which the total model rules out). -/
def longGrip (cfg : CarConfig) : Wheel4 :=
  ⟨cfg.tireGrips.getD 0 0, cfg.tireGrips.getD 1 0, cfg.tireGrips.getD 2 0, cfg.tireGrips.getD 3 0⟩

/-- Embeds `this.lateralGripCoeffs` from the constructor: an explicit lateral array
of length ≥ 4 is sliced; a shorter non-empty one is replicated by modulo
index; otherwise the longitudinal grips are scaled by
`max(1.02, tireLateralGripFactor)`. -/
def latGrip (cfg : CarConfig) : Wheel4 :=
  match cfg.tireLateralGrips with
  | some l =>
      if 4 ≤ l.length then ⟨l.getD 0 0, l.getD 1 0, l.getD 2 0, l.getD 3 0⟩
      else if 0 < l.length then
        ⟨l.getD (0 % l.length) 0, l.getD (1 % l.length) 0,
         l.getD (2 % l.length) 0, l.getD (3 % l.length) 0⟩
      else
        ⟨cfg.longGrip.fl * max 1.02 cfg.tireLateralGripFactor,
         cfg.longGrip.fr * max 1.02 cfg.tireLateralGripFactor,
         cfg.longGrip.rl * max 1.02 cfg.tireLateralGripFactor,
         cfg.longGrip.rr * max 1.02 cfg.tireLateralGripFactor⟩
  | none =>
      ⟨cfg.longGrip.fl * max 1.02 cfg.tireLateralGripFactor,
       cfg.longGrip.fr * max 1.02 cfg.tireLateralGripFactor,
       cfg.longGrip.rl * max 1.02 cfg.tireLateralGripFactor,
       cfg.longGrip.rr * max 1.02 cfg.tireLateralGripFactor⟩

/-- Embeds `this.brakeTorquePerWheelNm`: a 4-entry config array is sliced; otherwise
a symmetric fallback is derived from brake horsepower and the front bias. -/
def brakeTorque4 (cfg : CarConfig) : Wheel4 :=
  if 4 ≤ cfg.brakeTorquePerWheelNm.length then
    ⟨cfg.brakeTorquePerWheelNm.getD 0 0, cfg.brakeTorquePerWheelNm.getD 1 0,
     cfg.brakeTorquePerWheelNm.getD 2 0, cfg.brakeTorquePerWheelNm.getD 3 0⟩
  else
    let totalForce := cfg.brakeHorsepower * 745.7 / 30
    let frontForce := totalForce * cfg.brakeBiasFront
    let rearForce := totalForce - frontForce
    ⟨frontForce / 2 * cfg.wheelRadiusM, frontForce / 2 * cfg.wheelRadiusM,
     rearForce / 2 * cfg.wheelRadiusM, rearForce / 2 * cfg.wheelRadiusM⟩

end CarConfig

/-- Embeds `Car.torqueAtRpm(rpm)` from `carPhysics.js`. -/
def torqueAtRpm (cfg : CarConfig) (rpm : ℝ) : ℝ :=
  let limiterRpm := cfg.revLimiterRpm
  let idle := CarConfig.idleRpm
  let peak := cfg.peakRpm
  let effectiveRpm := clamp rpm idle (limiterRpm + 600)
  if effectiveRpm ≤ peak then
    let ratio := clamp ((effectiveRpm - idle) / max 1 (peak - idle)) 0 1
    let shaped := ratio ^ (1.25 : ℝ)
    let torqueFactor := 0.65 + 0.35 * shaped
    cfg.peakTorqueNm * clamp torqueFactor 0.45 1.05
  else if effectiveRpm ≤ limiterRpm then
    let torqueFromHp := cfg.horsepower * 5252 / max effectiveRpm 1
    let minTorque := cfg.peakTorqueNm * 0.45
    clamp torqueFromHp minTorque cfg.peakTorqueNm
  else
    let overshoot := clamp ((effectiveRpm - limiterRpm) / 600) 0 1
    cfg.peakTorqueNm * clamp (0.12 * (1 - overshoot)) 0.05 0.12

end Rockport

namespace Rockport

/-- JavaScript `Math.atan2(y, x)`. -/
def jsAtan2 (y x : ℝ) : ℝ :=
  if 0 < x then Real.arctan (y / x)
  else if x < 0 then
    (if 0 ≤ y then Real.arctan (y / x) + Real.pi else Real.arctan (y / x) - Real.pi)
  else
    (if 0 < y then Real.pi / 2 else if y < 0 then -(Real.pi / 2) else 0)

/-- Mutable `Car` state advanced by `Car.update` (the `VehicleState` of the
spec).  `revLimiterActive` is recomputed every tick by `updatePowertrain`
before `computeLongitudinalForces` reads it. -/
structure CarState where
  position : Vec2
  velocity : Vec2
  heading : ℝ
  angularVelocity : ℝ
  steerAngle : ℝ
  throttle : ℝ
  brake : ℝ
  gearIndex : ℤ
  reverseMode : Bool
  manualMode : Bool
  engineRpm : ℝ
  revLimiterActive : Bool
  lastLongitudinalAccel : ℝ
  lastLateralAccel : ℝ

/-- Reverse-mode transition block of `updatePowertrain`: returns the new
reverse flag, the (possibly clamped) throttle, and the (possibly adjusted)
gear index. -/
def reverseTransition (manualMode reverseMode : Bool) (gearIndex : ℤ)
    (th1 speedAbs : ℝ) : Bool × ℝ × ℤ :=
  if manualMode then (decide (gearIndex = -1), th1, gearIndex)
  else if reverseMode then
    if th1 > 0.1 ∧ speedAbs < 0.6 then (false, clamp th1 0 1, gearIndex)
    else (true, th1, gearIndex)
  else if th1 < -0.1 ∧ speedAbs < 0.6 then
    (true, th1, if gearIndex < 1 then 1 else gearIndex)
  else (false, th1, gearIndex)

/-- Engine-RPM derivation of `updatePowertrain`: wheel speed through the
drivetrain when moving in a positive gear, decay toward idle otherwise. -/
def engineRpmFrom (cfg : CarConfig) (effectiveGearRatio speedAbs oldRpm : ℝ) : ℝ :=
  if effectiveGearRatio > 0 ∧ speedAbs > 0.1 then
    max CarConfig.idleRpm
      |speedAbs / cfg.wheelRadiusM * effectiveGearRatio * cfg.finalDriveRatio * 60 /
        (2 * Real.pi)|
  else max (oldRpm * 0.98) CarConfig.idleRpm

/-- Rev-limiter block of `updatePowertrain`: returns the limiter-active
flag, the clamped RPM, and the (possibly attenuated) throttle. -/
def revLimiterCut (limiter rpm1 th2 : ℝ) : Bool × ℝ × ℝ :=
  if rpm1 > limiter then
    (true, limiter,
      if |th2| > 0.7 then (if th2 ≥ 0 then 1 else -1) * |th2| * 0.6 else th2)
  else (false, rpm1, th2)

/-- Automatic-shift block of `updatePowertrain`. -/
def autoShift (cfg : CarConfig) (manualMode rev : Bool) (rpm2 th3 : ℝ) (gear1 : ℤ) : ℤ :=
  if ¬manualMode ∧ ¬(rev = true) then
    if rpm2 > cfg.upshiftRpm ∧ gear1 < (cfg.gearRatios.length : ℤ) - 1 then gear1 + 1
    else if rpm2 < cfg.downshiftRpm ∧ gear1 > 1 ∧ th3 < 0.8 then gear1 - 1
    else gear1
  else gear1

/-- Embeds `Car.updatePowertrain(throttleInput, vLong, dt)` from `carPhysics.js`:
throttle smoothing, reverse-mode transitions, engine RPM from wheel speed,
rev-limiter clamp + throttle cut, and automatic up/down shifting. -/
def updatePowertrain (cfg : CarConfig) (throttleInput vLong dt : ℝ) (s : CarState) : CarState :=
  let target := clamp throttleInput (-1) 1
  let th1 := clamp (s.throttle + (target - s.throttle) * clamp (dt * 4) 0 1) (-1) 1
  let speedAbs := |vLong|
  let rts := reverseTransition s.manualMode s.reverseMode s.gearIndex th1 speedAbs
  let rev := rts.1
  let th2 := rts.2.1
  let gear1 := rts.2.2
  let effectiveGearRatio :=
    if rev then cfg.reverseGearRatio else cfg.gearRatios.getD (max 0 gear1).toNat 0
  let rpm1 := engineRpmFrom cfg effectiveGearRatio speedAbs s.engineRpm
  let art := revLimiterCut cfg.revLimiterRpm rpm1 th2
  let active := art.1
  let rpm2 := art.2.1
  let th3 := art.2.2
  let gear2 := autoShift cfg s.manualMode rev rpm2 th3 gear1
  { s with throttle := th3, reverseMode := rev, gearIndex := gear2,
           engineRpm := rpm2, revLimiterActive := active }

/-- Result of `Car.computeLongitudinalForces`. -/
structure LongForces where
  brake : ℝ
  driveForce : ℝ
  brakeForces : Wheel4

/-- Embeds `Car.computeLongitudinalForces(brakeInput, dt, vLong)` from
`carPhysics.js` (run after `updatePowertrain`, so it reads the updated
throttle / gear / RPM / rev-limiter flag).  `vLong` is accepted but unused,
as in the source. -/
def computeLongitudinalForces (cfg : CarConfig) (brakeInput dt _vLong : ℝ)
    (s : CarState) : LongForces :=
  let b1 := clamp (s.brake + (brakeInput - s.brake) * clamp (dt * 6) 0 1) 0 1
  let gearRatio :=
    if s.reverseMode then cfg.reverseGearRatio
    else cfg.gearRatios.getD (max 0 s.gearIndex).toNat 0
  let driveForce0 :=
    if gearRatio > 0 then
      let throttleMagnitude := if s.reverseMode then |s.throttle| else max s.throttle 0
      let torque := torqueAtRpm cfg s.engineRpm * throttleMagnitude * cfg.drivetrainEfficiency
      if torque > 0 then
        let baseForce := torque * gearRatio * cfg.finalDriveRatio / (cfg.wheelRadiusM + 1 / 1000000)
        if s.reverseMode then -baseForce else baseForce
      else 0
    else 0
  let driveForce :=
    if s.revLimiterActive = true ∧ |driveForce0| > 0 then driveForce0 * 0.15 else driveForce0
  let wr := cfg.wheelRadiusM + 1 / 1000000
  let bt := cfg.brakeTorque4
  { brake := b1, driveForce := driveForce,
    brakeForces := ⟨bt.fl * b1 / wr, bt.fr * b1 / wr, bt.rl * b1 / wr, bt.rr * b1 / wr⟩ }

/-- Embeds `Car.computeAeroForces(speed, backwards)`: returns `(drag, downforce)`. -/
def computeAeroForces (cfg : CarConfig) (speed : ℝ) (backwards : Prop)
    [Decidable backwards] : ℝ × ℝ :=
  let drag := 0.5 * airDensity * cfg.dragCoefficient * (if backwards then 2 else 1) *
    cfg.frontalAreaM2 * speed * speed
  let downforceScale := clamp (speed * 2.237 / 40) 0 1
  let downforce := 0.5 * airDensity * cfg.downforceCoefficient * cfg.frontalAreaM2 *
    speed * speed * downforceScale
  (drag, downforce)

/-- Per-wheel friction-ellipse saturation: the body of the tire loop in
`Car.update` from the cap ratios to the proportional scale-down.  Returns the
saturated `(fLong, fLat)` pair. -/
def saturateWheel (fLong fLat longitudinalCap lateralCap : ℝ) : ℝ × ℝ :=
  let longRatio :=
    if longitudinalCap > 1 / 1000000 then (fLong / (longitudinalCap + 1 / 1000000)) ^ 2 else 0
  let latRatio :=
    if lateralCap > 1 / 1000000 then (fLat / (lateralCap + 1 / 1000000)) ^ 2 else 0
  let loadRatio := Real.sqrt (longRatio + latRatio)
  if loadRatio > 1 ∧ (longitudinalCap > 0 ∨ lateralCap > 0) then
    (fLong * (1 / loadRatio), fLat * (1 / loadRatio))
  else (fLong, fLat)

/-- The low-speed settle block at the end of `Car.update`: `speed` is the
speed captured at the top of the tick, throttle and brake are the smoothed
values of this tick, and `velocity` / `angularVelocity` are the freshly
integrated values.  Returns the settled velocity and angular velocity. -/
def applySettle (speed throttle brake : ℝ) (velocity : Vec2) (angularVelocity : ℝ) :
    Vec2 × ℝ :=
  if speed < 0.2 ∧ |throttle| < 0.05 ∧ brake > 0.1 then
    let damped := Vec2.scale velocity 0.5
    if Vec2.len damped < 0.05 then (⟨0, 0⟩, 0)
    else (damped, angularVelocity)
  else (velocity, angularVelocity)

/-- Embeds `this.heading = ((this.heading + Math.PI) % (2*Math.PI)) - Math.PI`,
with `%` the JavaScript remainder. -/
def jsNormalizeHeading (h : ℝ) : ℝ :=
  jsRem (h + Real.pi) (2 * Real.pi) - Real.pi

/-- Intermediate per-tick quantities of `Car.update` up to (but not
including) the friction-ellipse saturation loop: body-frame velocities,
powertrain state, steering, aero and longitudinal forces, load transfer,
and the pre-saturation per-wheel force components. -/
structure PreSat where
  vLong : ℝ
  vLat : ℝ
  speed : ℝ
  s1 : CarState
  steer1 : ℝ
  dragForce : ℝ
  downforce : ℝ
  longF : LongForces
  lateralBias : ℝ
  normals : Wheel4
  frontLatMultiplier : ℝ
  fLong : Wheel4
  fLat : Wheel4

/-- The first half of `Car.update(throttleInput, brakeInput, steerInput, dt)`
(source order preserved), producing the pre-saturation tick data. -/
def preSatData (cfg : CarConfig) (s : CarState)
    (throttleInput brakeInput steerInput dt : ℝ) : PreSat :=
  let forward : Vec2 := ⟨Real.cos s.heading, Real.sin s.heading⟩
  let right : Vec2 := ⟨-Real.sin s.heading, Real.cos s.heading⟩
  let vLong := Vec2.dot s.velocity forward
  let vLat := Vec2.dot s.velocity right
  let speed := Vec2.len s.velocity
  let s1 := updatePowertrain cfg throttleInput vLong dt s
  let speedMph := speed * 2.237
  let reduction := clamp (speedMph - 25) 0 160
  let speedFactor := 1 - clamp (reduction ^ (1.2 : ℝ) / 200) 0 0.9
  let dynamicMaxSteer := Real.pi / 6 * speedFactor
  let targetSteer := clamp steerInput (-1) 1 * dynamicMaxSteer
  let steer1 := s.steerAngle + (targetSteer - s.steerAngle) * clamp (dt * 5) 0 1
  let aero := computeAeroForces cfg speed (vLong < -0.2)
  let lf := computeLongitudinalForces cfg brakeInput dt vLong s1
  let weight := cfg.massKg * gravity
  let frontStatic := weight * cfg.frontWeightDistribution
  let rearStatic := weight - frontStatic
  let downforceFront := aero.2 * cfg.frontWeightDistribution
  let downforceRear := aero.2 - downforceFront
  let longitudinalTransfer :=
    cfg.massKg * s.lastLongitudinalAccel * cfg.cgHeightM / max 0.1 cfg.wheelbaseM
  let frontAxleLoad := frontStatic + downforceFront - longitudinalTransfer
  let rearAxleLoad := rearStatic + downforceRear + longitudinalTransfer
  let lateralBias :=
    clamp (s.lastLateralAccel * cfg.cgHeightM / (gravity * max 0.1 cfg.trackWidthM)) (-0.45) 0.45
  let n : Wheel4 :=
    ⟨max 0 (frontAxleLoad * 0.5 * (1 + lateralBias)),
     max 0 (frontAxleLoad * 0.5 * (1 - lateralBias)),
     max 0 (rearAxleLoad * 0.5 * (1 + lateralBias)),
     max 0 (rearAxleLoad * 0.5 * (1 - lateralBias))⟩
  let frontAlignment :=
    if speed > 0.5 then
      clamp (Vec2.dot ⟨Real.cos (s.heading + steer1), Real.sin (s.heading + steer1)⟩
        ⟨s.velocity.x * (1 / speed), s.velocity.y * (1 / speed)⟩) 0 1
    else 0
  let brakingForward := lf.brake > 0.05 ∧ vLong > 0.2
  let frontGripBonus :=
    frontAlignment * 0.8 + (if brakingForward then lf.brake * 0.55 else 0.1)
  let slip : ℝ × ℝ :=
    if |vLong| > 0.5 then
      (jsAtan2 (vLat + s.angularVelocity * cfg.lf) |vLong| - steer1 * jsSign vLong,
       jsAtan2 (vLat - s.angularVelocity * cfg.lr) |vLong|)
    else if speed > 0.5 then
      (jsAtan2 (vLat + s.angularVelocity * cfg.lf) 0.5 - steer1,
       jsAtan2 (vLat - s.angularVelocity * cfg.lr) 0.5)
    else (0, 0)
  let maxFrontLat := cfg.latGrip.fl * n.fl + cfg.latGrip.fr * n.fr
  let maxRearLat := cfg.latGrip.rl * n.rl + cfg.latGrip.rr * n.rr
  let frontTotalLat := clamp (-80000 * slip.1) (-maxFrontLat) maxFrontLat
  let rearTotalLat := clamp (-90000 * slip.2) (-maxRearLat) maxRearLat
  let driveFrontPerWheel := lf.driveForce * cfg.driveSplitFront * 0.5
  let driveRearPerWheel := lf.driveForce * cfg.driveSplitRear * 0.5
  let brakeDirection := if |jsSign vLong| < 0.1 then 1 else jsSign vLong
  { vLong := vLong
    vLat := vLat
    speed := speed
    s1 := s1
    steer1 := steer1
    dragForce := aero.1
    downforce := aero.2
    longF := lf
    lateralBias := lateralBias
    normals := n
    frontLatMultiplier := 1 + max 0 frontGripBonus
    fLong :=
      ⟨driveFrontPerWheel - brakeDirection * lf.brakeForces.fl,
       driveFrontPerWheel - brakeDirection * lf.brakeForces.fr,
       driveRearPerWheel - brakeDirection * lf.brakeForces.rl,
       driveRearPerWheel - brakeDirection * lf.brakeForces.rr⟩
    fLat :=
      ⟨frontTotalLat * 0.5 * (1 + lateralBias), frontTotalLat * 0.5 * (1 - lateralBias),
       rearTotalLat * 0.5 * (1 + lateralBias), rearTotalLat * 0.5 * (1 - lateralBias)⟩ }

/-- One tick of `Car.update(throttleInput, brakeInput, steerInput, dt)`:
saturation of the per-wheel forces, aggregation into world-frame force and
yaw moment, drag/rolling resistance, semi-implicit Euler integration,
heading normalization, and the low-speed settle. -/
def carUpdate (cfg : CarConfig) (s : CarState)
    (throttleInput brakeInput steerInput dt : ℝ) : CarState :=
  let forward : Vec2 := ⟨Real.cos s.heading, Real.sin s.heading⟩
  let right : Vec2 := ⟨-Real.sin s.heading, Real.cos s.heading⟩
  let p := preSatData cfg s throttleInput brakeInput steerInput dt
  let w0 := saturateWheel p.fLong.fl p.fLat.fl (max 0 (cfg.longGrip.fl * p.normals.fl))
    (max 0 (cfg.latGrip.fl * p.normals.fl) * p.frontLatMultiplier)
  let w1 := saturateWheel p.fLong.fr p.fLat.fr (max 0 (cfg.longGrip.fr * p.normals.fr))
    (max 0 (cfg.latGrip.fr * p.normals.fr) * p.frontLatMultiplier)
  let w2 := saturateWheel p.fLong.rl p.fLat.rl (max 0 (cfg.longGrip.rl * p.normals.rl))
    (max 0 (cfg.latGrip.rl * p.normals.rl) * 1)
  let w3 := saturateWheel p.fLong.rr p.fLat.rr (max 0 (cfg.longGrip.rr * p.normals.rr))
    (max 0 (cfg.latGrip.rr * p.normals.rr) * 1)
  let totalLongitudinal := w0.1 + w1.1 + w2.1 + w3.1
  let totalLateral := w0.2 + w1.2 + w2.2 + w3.2
  let halfTrack := cfg.trackWidthM * 0.5
  let totalYawMoment :=
    (cfg.lf * w0.2 - halfTrack * w0.1) + (cfg.lf * w1.2 - -halfTrack * w1.1) +
    (-cfg.lr * w2.2 - halfTrack * w2.1) + (-cfg.lr * w3.2 - -halfTrack * w3.1)
  let forceWorld0 : Vec2 :=
    ⟨forward.x * totalLongitudinal + right.x * totalLateral,
     forward.y * totalLongitudinal + right.y * totalLateral⟩
  let weight := cfg.massKg * gravity
  let forceWorld : Vec2 :=
    if p.speed > 1 / 1000 then
      let velDir := Vec2.normalize s.velocity
      ⟨forceWorld0.x + -velDir.x * p.dragForce + -velDir.x * (cfg.rollingResistanceCoeff * weight),
       forceWorld0.y + -velDir.y * p.dragForce + -velDir.y * (cfg.rollingResistanceCoeff * weight)⟩
    else forceWorld0
  let acceleration : Vec2 := ⟨forceWorld.x / cfg.massKg, forceWorld.y / cfg.massKg⟩
  let velocity1 := Vec2.addScaled s.velocity acceleration dt
  let position1 := Vec2.addScaled s.position velocity1 dt
  let angularAccel := totalYawMoment / (cfg.inertia + 1 / 1000000)
  let omega1 := s.angularVelocity + angularAccel * dt
  let heading1 := jsNormalizeHeading (s.heading + omega1 * dt)
  let settled := applySettle p.speed p.s1.throttle p.longF.brake velocity1 omega1
  { p.s1 with
    position := position1
    velocity := settled.1
    heading := heading1
    angularVelocity := settled.2
    steerAngle := p.steer1
    brake := p.longF.brake
    lastLongitudinalAccel := Vec2.dot acceleration forward
    lastLateralAccel := Vec2.dot acceleration right }

end Rockport

namespace Rockport

/-- The state of `createTestCar(config)` followed by
`resetState({position:{x:0,y:0}, heading:0})` in `main.js`: a fresh
`PhysicsCar` at the origin, at rest, in automatic mode. -/
def initTestCar (cfg : CarConfig) : CarState where
  position := ⟨0, 0⟩
  velocity := ⟨0, 0⟩
  heading := 0
  angularVelocity := 0
  steerAngle := 0
  throttle := 0
  brake := 0
  gearIndex := min 1 ((cfg.gearRatios.length : ℤ) - 1)
  reverseMode := false
  manualMode := false
  engineRpm := CarConfig.idleRpm
  revLimiterActive := false
  lastLongitudinalAccel := 0
  lastLateralAccel := 0

/-- One input sample for a tick: throttle, brake, steer, dt. -/
structure Input where
  throttleInput : ℝ
  brakeInput : ℝ
  steerInput : ℝ
  dt : ℝ

/-- A trajectory run: `Car.update` folded over an input sequence. -/
def runUpdates (cfg : CarConfig) (s : CarState) (inputs : List Input) : CarState :=
  inputs.foldl (fun st i => carUpdate cfg st i.throttleInput i.brakeInput i.steerInput i.dt) s

/-- The wall clock: the `n`-th call to `Date.now()` returns `clock n`.
The call index is threaded explicitly through the calibration code. -/
def Clock := ℕ → ℝ

/-- Return value of `measureZeroToHundred`. -/
structure MeasureZtH where
  timeSec : Option ℝ
  reached : Bool

/-- Return value of `measureTopSpeed` (`maxSpeedKph` is an `Option` because
`runCalibration` initialises its slot to `null` before any measurement). -/
structure MeasureTop where
  maxSpeedKph : Option ℝ
  durationSec : ℝ

/-- Loop of `measureZeroToHundred`: simulate at `dt = 1/200` until speed
crosses 100 km/h, 15 s elapse, or the wall-clock deadline passes.  `fuel`
bounds the recursion; since `time` advances by exactly `1/200` per iteration
the `time < 15` test stops the loop after at most 3000 iterations, so any
`fuel ≥ 3001` reproduces the `while` loop.  Sample collection is a write-only
output and is omitted.  Returns (result, simulation ticks run, next clock
index). -/
def mzhAux (cfg : CarConfig) (deadline : Option ℝ) (clock : Clock) :
    ℕ → CarState → ℝ → ℝ → ℕ → ℕ → MeasureZtH × ℕ × ℕ
  | 0, _, _, _, idx, ticks => (⟨some 15, false⟩, ticks, idx)
  | fuel + 1, s, time, previousSpeed, idx, ticks =>
    if time < 15 then
      let hit : Bool × ℕ :=
        match deadline with
        | none => (false, idx)
        | some d => (decide (clock idx > d), idx + 1)
      if hit.1 then (⟨none, false⟩, ticks, hit.2)
      else
        let s1 := carUpdate cfg s 1 0 0 (1 / 200)
        let time1 := time + 1 / 200
        let speed := Vec2.len s1.velocity * 3.6
        if speed ≥ 100 then
          let deltaSpeed := speed - previousSpeed
          let crossingTime :=
            if deltaSpeed > 1 / 1000000 then
              time1 - 1 / 200 +
                clampToRange ((100 - previousSpeed) / deltaSpeed) 0 1 * (1 / 200)
            else time1
          (⟨some crossingTime, true⟩, ticks + 1, hit.2)
        else mzhAux cfg deadline clock fuel s1 time1 speed hit.2 (ticks + 1)
    else (⟨some 15, false⟩, ticks, idx)

/-- Embeds `measureZeroToHundred(config, options)` from `main.js`. -/
def measureZeroToHundred (cfg : CarConfig) (deadline : Option ℝ) (clock : Clock)
    (idx : ℕ) : MeasureZtH × ℕ × ℕ :=
  mzhAux cfg deadline clock 3001 (initTestCar cfg) 0 0 idx 0

/-- Loop of `measureTopSpeed`: simulate at `dt = 1/200` until the top speed
has been stable for 7 s (after 5 s minimum), 160 s elapse, or the deadline
passes.  `fuel ≥ 32001` reproduces the `while` loop.  Returns (result,
simulation ticks run, next clock index). -/
def mtsAux (cfg : CarConfig) (deadline : Option ℝ) (clock : Clock) :
    ℕ → CarState → ℝ → ℝ → ℝ → ℕ → ℕ → MeasureTop × ℕ × ℕ
  | 0, _, time, maxSpeed, _, idx, ticks => (⟨some maxSpeed, time⟩, ticks, idx)
  | fuel + 1, s, time, maxSpeed, stableTime, idx, ticks =>
    if time < 160 then
      let hit : Bool × ℕ :=
        match deadline with
        | none => (false, idx)
        | some d => (decide (clock idx > d), idx + 1)
      if hit.1 then (⟨some maxSpeed, time⟩, ticks, hit.2)
      else
        let s1 := carUpdate cfg s 1 0 0 (1 / 200)
        let time1 := time + 1 / 200
        let speed := Vec2.len s1.velocity * 3.6
        let ms : ℝ × ℝ :=
          if speed > maxSpeed + 0.05 then (speed, 0)
          else if |speed - maxSpeed| < 0.1 then (maxSpeed, stableTime + 1 / 200)
          else (maxSpeed, stableTime + 1 / 200 * 0.25)
        if time1 > 5 ∧ ms.2 ≥ 7 then (⟨some ms.1, time1⟩, ticks + 1, hit.2)
        else mtsAux cfg deadline clock fuel s1 time1 ms.1 ms.2 hit.2 (ticks + 1)
    else (⟨some maxSpeed, time⟩, ticks, idx)

/-- Embeds `measureTopSpeed(config, options)` from `main.js`. -/
def measureTopSpeed (cfg : CarConfig) (deadline : Option ℝ) (clock : Clock)
    (idx : ℕ) : MeasureTop × ℕ × ℕ :=
  mtsAux cfg deadline clock 32001 (initTestCar cfg) 0 0 0 idx 0

end Rockport

namespace Rockport

/-- The numeric performance fields that `findNumeric` probes, one `Option`
per source key (a `none` models an absent key or a value that does not
coerce to a finite number; values are already passed through `Number(...)`).
The two `topSpeedMph` spellings differ only in letter case in the source. -/
structure SpecNums where
  topSpeedKph : Option ℝ := none
  topSpeedKmH : Option ℝ := none
  topSpeed : Option ℝ := none
  vMaxKph : Option ℝ := none
  vMaxKmH : Option ℝ := none
  topSpeedMph : Option ℝ := none
  topSpeedMPH : Option ℝ := none
  zeroToHundredSec : Option ℝ := none
  zeroTo100Sec : Option ℝ := none
  zeroToHundred : Option ℝ := none
  zeroTo100 : Option ℝ := none
  zeroToHundredKmH : Option ℝ := none
  zeroToSixtySec : Option ℝ := none
  zeroToSixty : Option ℝ := none
  zeroTo60Sec : Option ℝ := none
  zeroTo60 : Option ℝ := none
  zeroToSixtyMph : Option ℝ := none

/-- Grip/brake-torque fields accept scalar or array-valued forms; a
delimited string is parsed upstream into the array form with non-numeric
parts dropped (`normalizeGripInput`'s string branch). -/
inductive GripInput where
  | num (v : ℝ)
  | arr (l : List ℝ)

/-- Per-spec hand-tuned calibration overrides (`spec.calibrationOverrides`),
and also the shape of the override delta stored in a calibration record. -/
structure Overrides where
  dragCoefficient : Option ℝ := none
  rollingResistanceCoeff : Option ℝ := none
  drivetrainEfficiency : Option ℝ := none

/-- A car spec (`car.specs`) as consumed by `extractTargets` and
`createCarConfigFromSpec`: the probed numeric fields (top level and the
nested `performance` / `realWorld` / `stats` sub-objects) plus the
config-mapping fields. -/
structure Spec where
  nums : SpecNums := {}
  performance : Option SpecNums := none
  realWorld : Option SpecNums := none
  stats : Option SpecNums := none
  massKg : Option ℝ := none
  driveType : Option DriveType := none
  gearRatios : Option (List ℝ) := none
  finalDrive : Option ℝ := none
  horsepower : Option ℝ := none
  torqueNm : Option ℝ := none
  brakeHorsepower : Option ℝ := none
  dragCoefficient : Option ℝ := none
  downforceCoefficient : Option ℝ := none
  frontalAreaM2 : Option ℝ := none
  wheelRadiusM : Option ℝ := none
  tireGrips : Option GripInput := none
  tireGripLong : Option GripInput := none
  tireGripLongitudinal : Option GripInput := none
  tireGripLat : Option GripInput := none
  tireGripLateral : Option GripInput := none
  tireGripSide : Option GripInput := none
  tireGripLatitudinal : Option GripInput := none
  tireLateralGripFactor : Option ℝ := none
  wheelbaseM : Option ℝ := none
  cgHeightM : Option ℝ := none
  trackWidthM : Option ℝ := none
  frontWeightDistribution : Option ℝ := none
  drivetrainEfficiency : Option ℝ := none
  rollingResistanceCoeff : Option ℝ := none
  revLimiterRpm : Option ℝ := none
  brakeBiasFront : Option ℝ := none
  brakeTorquePerWheelNm : Option GripInput := none
  brakeTorquePerWheel : Option GripInput := none
  brakeTorque : Option GripInput := none
  brakeTorqueNm : Option GripInput := none
  calibrationOverrides : Option Overrides := none

/-- The container list `[spec, spec.performance, spec.realWorld, spec.stats]`
probed by `findNumeric` (absent sub-objects contribute nothing). -/
def Spec.containers (spec : Spec) : List SpecNums :=
  [spec.nums] ++ spec.performance.toList ++ spec.realWorld.toList ++ spec.stats.toList

/-- Inner loop of `findNumeric` for one key: the first container owning the
key with a finite value `> 0`. -/
def findNumericKey (spec : Spec) (f : SpecNums → Option ℝ) : Option ℝ :=
  (spec.containers.filterMap fun c =>
    (f c).bind fun v => if 0 < v then some v else none).head?

/-- Embeds `findNumeric(spec, keys)` from `main.js`: keys in order, containers in
order, first finite positive value wins. -/
def findNumeric (spec : Spec) (keys : List (SpecNums → Option ℝ)) : Option ℝ :=
  (keys.filterMap (findNumericKey spec)).head?

/-- Embeds `PerformanceTarget` as returned by `extractTargets`. -/
structure Targets where
  topSpeedKph : Option ℝ
  zeroToHundredSec : Option ℝ

/-- Embeds `extractTargets(spec)` from `main.js`: direct km/h keys, else mph × 1.60934;
direct 0–100 keys, else 0–60 × 1.05; `none` when neither metric is present. -/
def extractTargets (spec : Spec) : Option Targets :=
  let top :=
    (findNumeric spec
        [SpecNums.topSpeedKph, SpecNums.topSpeedKmH, SpecNums.topSpeed,
         SpecNums.vMaxKph, SpecNums.vMaxKmH]).orElse fun _ =>
      (findNumeric spec [SpecNums.topSpeedMph, SpecNums.topSpeedMPH]).map (· * 1.60934)
  let zero :=
    (findNumeric spec
        [SpecNums.zeroToHundredSec, SpecNums.zeroTo100Sec, SpecNums.zeroToHundred,
         SpecNums.zeroTo100, SpecNums.zeroToHundredKmH]).orElse fun _ =>
      (findNumeric spec
        [SpecNums.zeroToSixtySec, SpecNums.zeroToSixty, SpecNums.zeroTo60Sec,
         SpecNums.zeroTo60, SpecNums.zeroToSixtyMph]).map (· * 1.05)
  if top = none ∧ zero = none then none
  else some ⟨top, zero⟩

/-- Embeds `normalizeGripInput(input)` from `main.js` (string inputs arrive already
split into the array form). -/
def normalizeGripInput : Option GripInput → Option (List ℝ)
  | none => none
  | some (.num v) => some [v]
  | some (.arr l) => if l.isEmpty then none else some l

/-- Modulo-indexed replication of a non-empty list to exactly 4 entries:
`[0,1,2,3].map(i => values[i % values.length])`. -/
def replicate4 (l : List ℝ) : List ℝ :=
  [l.getD (0 % l.length) 0, l.getD (1 % l.length) 0,
   l.getD (2 % l.length) 0, l.getD (3 % l.length) 0]

/-- Embeds `ensureGripArray(values, fallbackArray, fallbackFactor)` from `main.js`. -/
def ensureGripArray (values fallbackArray : Option GripInput)
    (_fallbackFactor : Option ℝ) : Option (List ℝ) :=
  match normalizeGripInput values with
  | some nv =>
    if 4 ≤ nv.length then some (nv.take 4)
    else some (replicate4 nv)
  | none =>
    match normalizeGripInput fallbackArray with
    | some nf =>
      if 4 ≤ nf.length then some (nf.take 4)
      else some (replicate4 nf)
    | none =>
      -- remaining branches: an explicitly empty fallback array, or a
      -- positive fallback factor with no normalized values, all yield
      -- `undefined`; the factor-scaling branch is unreachable because a
      -- non-empty normalized `values` was handled above.
      none

/-- Embeds `ensureGearRatios(ratios)` from `main.js`: default ratios when absent or
empty; prepend the neutral 0 when the first entry is non-zero. -/
def ensureGearRatios : Option (List ℝ) → List ℝ
  | none => defaultCarConfig.gearRatios
  | some [] => defaultCarConfig.gearRatios
  | some (r :: rs) => if r = 0 then r :: rs else 0 :: r :: rs

/-- Embeds `computeBrakeHorsepower(horsepower)` from `main.js`. -/
def computeBrakeHorsepower (horsepower : ℝ) : ℝ := horsepower * 0.82

/-- Embeds `computeFallbackBrakeTorque(config)` from `main.js`. -/
def computeFallbackBrakeTorque (cfg : CarConfig) : List ℝ :=
  let totalForce := cfg.brakeHorsepower * 745.7 / 30
  let frontForce := totalForce * cfg.brakeBiasFront
  let rearForce := totalForce - frontForce
  [frontForce / 2 * cfg.wheelRadiusM, frontForce / 2 * cfg.wheelRadiusM,
   rearForce / 2 * cfg.wheelRadiusM, rearForce / 2 * cfg.wheelRadiusM]

/-- Embeds `createCarConfigFromSpec(spec, context)` from `main.js`.
`managerOverrides` stands for `carVerificationManager.getOverrides(id)`;
`runCalibration` calls with `applyOverrides := false`. -/
def createCarConfigFromSpec (spec : Spec) (applyOverrides : Bool)
    (managerOverrides : Option Overrides) : CarConfig :=
  let base := defaultCarConfig
  let baseLongGrips := base.tireGrips
  let baseLatFactor := base.tireLateralGripFactor
  let tireGrips :=
    (ensureGripArray (spec.tireGrips <|> spec.tireGripLong <|> spec.tireGripLongitudinal)
      (some (.arr baseLongGrips)) none).getD baseLongGrips
  let tireLateralInput :=
    spec.tireGripLat <|> spec.tireGripLateral <|> spec.tireGripSide <|> spec.tireGripLatitudinal
  let latFactor := spec.tireLateralGripFactor.getD baseLatFactor
  let tireLateralGrips :=
    (ensureGripArray tireLateralInput
      (some (.arr (tireGrips.map (· * baseLatFactor)))) (some latFactor)).getD
      (tireGrips.map (· * latFactor))
  let config : CarConfig :=
    { base with
      massKg := spec.massKg.getD base.massKg
      driveType := spec.driveType.getD base.driveType
      gearRatios := ensureGearRatios spec.gearRatios
      finalDriveRatio := spec.finalDrive.getD base.finalDriveRatio
      horsepower := spec.horsepower.getD base.horsepower
      peakTorqueNm := spec.torqueNm.getD base.peakTorqueNm
      brakeHorsepower :=
        spec.brakeHorsepower.getD (computeBrakeHorsepower (spec.horsepower.getD base.horsepower))
      dragCoefficient := spec.dragCoefficient.getD base.dragCoefficient
      downforceCoefficient := spec.downforceCoefficient.getD base.downforceCoefficient
      frontalAreaM2 := spec.frontalAreaM2.getD base.frontalAreaM2
      wheelRadiusM := spec.wheelRadiusM.getD base.wheelRadiusM
      tireGrips := tireGrips
      tireLateralGrips := some tireLateralGrips
      tireLateralGripFactor := latFactor
      wheelbaseM := spec.wheelbaseM.getD base.wheelbaseM
      cgHeightM := spec.cgHeightM.getD base.cgHeightM
      trackWidthM := spec.trackWidthM.getD base.trackWidthM
      frontWeightDistribution := spec.frontWeightDistribution.getD base.frontWeightDistribution
      drivetrainEfficiency := spec.drivetrainEfficiency.getD base.drivetrainEfficiency
      rollingResistanceCoeff := spec.rollingResistanceCoeff.getD base.rollingResistanceCoeff
      revLimiterRpm := spec.revLimiterRpm.getD base.revLimiterRpm
      brakeBiasFront := spec.brakeBiasFront.getD base.brakeBiasFront }
  let config2 :=
    match spec.calibrationOverrides with
    | none => config
    | some o =>
      { config with
        dragCoefficient := o.dragCoefficient.getD config.dragCoefficient
        rollingResistanceCoeff := o.rollingResistanceCoeff.getD config.rollingResistanceCoeff
        drivetrainEfficiency := o.drivetrainEfficiency.getD config.drivetrainEfficiency }
  let config3 :=
    { config2 with
      brakeTorquePerWheelNm :=
        (ensureGripArray
          (spec.brakeTorquePerWheelNm <|> spec.brakeTorquePerWheel <|>
            spec.brakeTorque <|> spec.brakeTorqueNm)
          (some (.arr base.brakeTorquePerWheelNm)) none).getD
          (computeFallbackBrakeTorque config2) }
  if applyOverrides then
    match managerOverrides with
    | none => config3
    | some o =>
      { config3 with
        dragCoefficient := o.dragCoefficient.getD config3.dragCoefficient
        rollingResistanceCoeff := o.rollingResistanceCoeff.getD config3.rollingResistanceCoeff
        drivetrainEfficiency := o.drivetrainEfficiency.getD config3.drivetrainEfficiency }
  else config3

end Rockport

namespace Rockport

/-- Embeds `CAR_VERIFICATION_VERSION` from `main.js`. -/
def currentVersion : ℕ := 1

/-- Embeds `CarVerificationManager.mix(current, target, factor)`:
`current·(1−α) + target·α` with `α = clampToRange(factor, 0, 1)` (the
`Number.isFinite` guards never fire in the real-valued model). -/
def mix (current target factor : ℝ) : ℝ :=
  let alpha := clampToRange factor 0 1
  current * (1 - alpha) + target * alpha

/-- Embeds `CarVerificationManager.isWithinTolerance(current, target, f)`:
relative error at most `|f|` (false when `target` is 0 or any argument is
not a finite number — the latter is handled by the `Option`-lifted form). -/
def isWithinTolerance (current target toleranceFraction : ℝ) : Prop :=
  target ≠ 0 ∧ |current - target| / |target| ≤ |toleranceFraction|

/-- Embeds `isWithinTolerance` applied to a possibly-`null` measured value. -/
def isWithinToleranceO (current : Option ℝ) (target toleranceFraction : ℝ) : Prop :=
  match current with
  | none => False
  | some v => isWithinTolerance v target toleranceFraction

/-- Embeds `CarVerificationManager.adjustAcceleration(config, measuredSec, targetSec)`
from `main.js` (the `?? default` fallbacks never fire in the total model). -/
def adjustAcceleration (cfg : CarConfig) (measuredSec targetSec : ℝ) : CarConfig :=
  if measuredSec ≤ 0 ∨ targetSec ≤ 0 then cfg
  else
    let ratio := clampToRange (measuredSec / targetSec) 0.25 4
    let desiredEfficiency :=
      clampToRange (cfg.drivetrainEfficiency / ratio ^ (0.92 : ℝ)) 0.6 1
    let newEfficiency := mix cfg.drivetrainEfficiency desiredEfficiency 0.55
    let desiredRolling :=
      clampToRange (cfg.rollingResistanceCoeff * (1 + (ratio - 1) * 0.45)) 0.0045 0.03
    let newRolling := mix cfg.rollingResistanceCoeff desiredRolling 0.35
    { cfg with drivetrainEfficiency := newEfficiency, rollingResistanceCoeff := newRolling }

/-- Embeds `adjustAcceleration` applied to a possibly-`null` measured value (a
`null` fails the source's `Number.isFinite` guard and leaves the config
unchanged). -/
def adjustAccelerationO (cfg : CarConfig) (measuredSec : Option ℝ) (targetSec : ℝ) : CarConfig :=
  match measuredSec with
  | none => cfg
  | some v => adjustAcceleration cfg v targetSec

/-- Embeds `CarVerificationManager.adjustTopSpeed(config, measuredKph, targetKph)`. -/
def adjustTopSpeed (cfg : CarConfig) (measuredKph targetKph : ℝ) : CarConfig :=
  if measuredKph ≤ 0 ∨ targetKph ≤ 0 then cfg
  else
    let ratio := clampToRange (measuredKph / targetKph) 0.5 1.6
    let desiredDrag := clampToRange (cfg.dragCoefficient * ratio * ratio) 0.16 0.9
    let newDrag := mix cfg.dragCoefficient desiredDrag 0.6
    let desiredEfficiency :=
      clampToRange (cfg.drivetrainEfficiency / ratio ^ (0.35 : ℝ)) 0.6 1
    let newEfficiency := mix cfg.drivetrainEfficiency desiredEfficiency 0.25
    let desiredRolling :=
      clampToRange (cfg.rollingResistanceCoeff * (1 + (ratio - 1) * 0.25)) 0.0045 0.03
    let newRolling := mix cfg.rollingResistanceCoeff desiredRolling 0.2
    { cfg with dragCoefficient := newDrag, drivetrainEfficiency := newEfficiency,
               rollingResistanceCoeff := newRolling }

/-- Embeds `adjustTopSpeed` applied to a possibly-`null` measured value. -/
def adjustTopSpeedO (cfg : CarConfig) (measuredKph : Option ℝ) (targetKph : ℝ) : CarConfig :=
  match measuredKph with
  | none => cfg
  | some v => adjustTopSpeed cfg v targetKph

/-- Embeds `Number(value.toFixed(5))`: rounding to 5 decimal places (ties behave as
round-half-up for the magnitudes involved). -/
def round5 (x : ℝ) : ℝ := (⌊x * 100000 + 1 / 2⌋ : ℝ) / 100000

/-- One key of `computeOverrides`: skip when within `1e-4` of the base value,
otherwise record the rounded new value. -/
def overrideFor (nextValue baseValue : ℝ) : Option ℝ :=
  if |nextValue - baseValue| ≤ 1 / 10000 then none else some (round5 nextValue)

/-- Embeds `CarVerificationManager.computeOverrides(config, baseConfig)`: the
override delta over the three tunable keys, `none` when nothing changed. -/
def computeOverrides (cfg base : CarConfig) : Option Overrides :=
  let d := overrideFor cfg.dragCoefficient base.dragCoefficient
  let r := overrideFor cfg.rollingResistanceCoeff base.rollingResistanceCoeff
  let e := overrideFor cfg.drivetrainEfficiency base.drivetrainEfficiency
  if d = none ∧ r = none ∧ e = none then none
  else some ⟨d, r, e⟩

/-- Embeds `measured` block of a `CalibrationRecord`. -/
structure Measured where
  zeroToHundredSec : Option ℝ
  zeroToHundredReached : Bool
  topSpeedKph : Option ℝ
  topSpeedDurationSec : ℝ

/-- Embeds `CalibrationRecord` as returned by `runCalibration` (the transient
`samples` and `calibratedConfig` fields, deleted before the record is
stored, are omitted). -/
structure CalibRecord where
  version : ℕ
  verified : Bool
  overrides : Option Overrides
  measured : Measured
  target : Option Targets
  iterations : ℕ
  updatedAt : ℝ
  note : Option String

/-- State carried through the calibration loop. -/
structure CalibLoopState where
  working : CarConfig
  measuredZero : MeasureZtH
  measuredTop : MeasureTop
  actualIterations : ℕ
  timedOut : Bool
  idx : ℕ
  ticks : ℕ

/-- The `for (index …)` loop of `runCalibration`: each round aborts on the
wall-clock deadline, measures and (outside tolerance) adjusts for each
present target, and stops early when both are within tolerance.
`remaining` counts loop indices still available. -/
def calibLoop (targets : Targets) (deadline : ℝ) (clock : Clock) :
    ℕ → CalibLoopState → CalibLoopState
  | 0, st => st
  | remaining + 1, st =>
    let st := { st with actualIterations := st.actualIterations + 1 }
    if clock st.idx > deadline then
      { st with timedOut := true, idx := st.idx + 1 }
    else
      let st := { st with idx := st.idx + 1 }
      let afterZero : Prop × CalibLoopState :=
        match targets.zeroToHundredSec with
        | none => (True, st)
        | some target =>
          let m := measureZeroToHundred st.working (some deadline) clock st.idx
          let close := isWithinToleranceO m.1.timeSec target 0.04
          let working1 :=
            if close then st.working else adjustAccelerationO st.working m.1.timeSec target
          (close, { st with working := working1, measuredZero := m.1,
                            ticks := st.ticks + m.2.1, idx := m.2.2 })
      let st1 := afterZero.2
      let afterTop : Prop × CalibLoopState :=
        match targets.topSpeedKph with
        | none => (True, st1)
        | some target =>
          let m := measureTopSpeed st1.working (some deadline) clock st1.idx
          let close := isWithinToleranceO m.1.maxSpeedKph target 0.03
          let working1 :=
            if close then st1.working else adjustTopSpeedO st1.working m.1.maxSpeedKph target
          (close, { st1 with working := working1, measuredTop := m.1,
                             ticks := st1.ticks + m.2.1, idx := m.2.2 })
      let st2 := afterTop.2
      if afterZero.1 ∧ afterTop.1 then st2
      else calibLoop targets deadline clock remaining st2

/-- Embeds `CarVerificationManager.runCalibration(car, options)` from `main.js`,
over an explicit `Date.now()` oracle.  `timeoutMs` is the per-car timeout in
whole milliseconds (callers floor it); `maxIterationsOpt` is the
`options.maxIterations` override.  Returns the record together with the
total number of simulation ticks run (0 means no test car was ever
stepped). -/
def runCalibration (spec : Spec) (clock : Clock) (timeoutMs : ℕ)
    (maxIterationsOpt : Option ℕ) : CalibRecord × ℕ :=
  match extractTargets spec with
  | none =>
    ({ version := currentVersion
       verified := true
       overrides := none
       measured := ⟨none, false, none, 0⟩
       target := none
       iterations := 0
       updatedAt := clock 0
       note := some ("No performance targets provided; skipped calibration.") }, 0)
  | some targets =>
    let baseConfig := createCarConfigFromSpec spec false none
    let deadline := clock 0 + (timeoutMs : ℝ)
    let maxIterations := max 1 (maxIterationsOpt.getD 12)
    let st0 : CalibLoopState :=
      { working := baseConfig, measuredZero := ⟨none, false⟩, measuredTop := ⟨none, 0⟩,
        actualIterations := 0, timedOut := false, idx := 1, ticks := 0 }
    let st := calibLoop targets deadline clock maxIterations st0
    let afterZero : MeasureZtH × ℕ × ℕ :=
      match targets.zeroToHundredSec with
      | none => (st.measuredZero, st.ticks, st.idx)
      | some _ =>
        let m := measureZeroToHundred st.working (some deadline) clock st.idx
        (m.1, st.ticks + m.2.1, m.2.2)
    let afterTop : MeasureTop × ℕ × ℕ :=
      match targets.topSpeedKph with
      | none => (st.measuredTop, afterZero.2.1, afterZero.2.2)
      | some _ =>
        let m := measureTopSpeed st.working (some deadline) clock afterZero.2.2
        (m.1, afterZero.2.1 + m.2.1, m.2.2)
    let overrides := computeOverrides st.working baseConfig
    ({ version := currentVersion
       verified := !st.timedOut
       overrides := overrides
       measured := ⟨afterZero.1.timeSec, afterZero.1.reached,
                    afterTop.1.maxSpeedKph, afterTop.1.durationSec⟩
       target := some targets
       iterations := st.actualIterations
       updatedAt := clock afterTop.2.2
       note :=
         if st.timedOut then
           some ("Calibration timed out after " ++ toString timeoutMs ++ " ms")
         else none }, afterTop.2.1)

/-- Embeds `CarVerificationManager.isRecordCurrent(record)`. -/
def isRecordCurrent (version : ℕ) : Option CalibRecord → Bool
  | none => false
  | some r => version == r.version && r.verified

/-- The three per-car outcomes of the lookup loop in `verifyAllCars`. -/
inductive CarAction where
  | skip
  | shortcut
  | queue
deriving DecidableEq

/-- The per-car branch of `verifyAllCars`: skip entirely on a current record
with a verified spec flag; take the spec-flag shortcut (write a record, no
measurement) when only the flag is set; otherwise queue for calibration. -/
def classifyCar (version : ℕ) (existing : Option CalibRecord) (specVerified : Bool) :
    CarAction :=
  if isRecordCurrent version existing && specVerified then .skip
  else if specVerified then .shortcut
  else .queue

end Rockport

namespace Rockport

/-- A freshly constructed default car at rest with initial heading `−4`
(`new Car(defaultCarConfig(), { heading: -4 })`). -/
def cxState8 : CarState :=
  ⟨⟨0, 0⟩, ⟨0, 0⟩, -4, 0, 0, 0, 0, 1, false, false, 900, false, 0, 0⟩

/-- A default car coasting straight ahead at 1 cm/s with no pedal input
(reachable via `restoreState` or simply by coasting down). -/
def cxState9 : CarState :=
  ⟨⟨0, 0⟩, ⟨1 / 100, 0⟩, 0, 0, 0, 0, 0, 1, false, false, 900, false, 0, 0⟩

theorem cap_ratio_sq_le (x cap : ℝ) (h : 1 / 1000 ≤ cap) :
    (x / cap) ^ 2 ≤ (1001 / 1000) ^ 2 * (x / (cap + 1 / 1000000)) ^ 2 := by
  have hc : (0 : ℝ) < cap := lt_of_lt_of_le (by norm_num) h
  have hg : (0 : ℝ) < cap + 1 / 1000000 := by linarith
  have key : x / cap = x / (cap + 1 / 1000000) * ((cap + 1 / 1000000) / cap) := by
    field_simp
    ring
  have hr : (cap + 1 / 1000000) / cap ≤ 1001 / 1000 := by
    rw [div_le_iff₀ hc]; nlinarith
  have hr0 : (0 : ℝ) ≤ (cap + 1 / 1000000) / cap := by positivity
  calc (x / cap) ^ 2 = (x / (cap + 1 / 1000000)) ^ 2 * ((cap + 1 / 1000000) / cap) ^ 2 := by
        rw [key, mul_pow]
    _ ≤ (x / (cap + 1 / 1000000)) ^ 2 * (1001 / 1000) ^ 2 := by
        have := pow_le_pow_left₀ hr0 hr 2
        exact mul_le_mul_of_nonneg_left this (by positivity)
    _ = (1001 / 1000) ^ 2 * (x / (cap + 1 / 1000000)) ^ 2 := by ring

theorem saturateWheel_eq (fLong fLat longCap latCap : ℝ)
    (hl : longCap > 1 / 1000000) (ht : latCap > 1 / 1000000) :
    saturateWheel fLong fLat longCap latCap =
      (if Real.sqrt ((fLong / (longCap + 1 / 1000000)) ^ 2 +
            (fLat / (latCap + 1 / 1000000)) ^ 2) > 1 ∧ (longCap > 0 ∨ latCap > 0)
       then (fLong * (1 / Real.sqrt ((fLong / (longCap + 1 / 1000000)) ^ 2 +
              (fLat / (latCap + 1 / 1000000)) ^ 2)),
             fLat * (1 / Real.sqrt ((fLong / (longCap + 1 / 1000000)) ^ 2 +
              (fLat / (latCap + 1 / 1000000)) ^ 2)))
       else (fLong, fLat)) := by
  simp only [saturateWheel, if_pos hl, if_pos ht]

/-- C1: after the per-wheel friction-ellipse saturation step of `Car.update`
(with the wheel's longitudinal and lateral force caps at least 1 mN), the
post-saturation forces satisfy `(Flong/FlongMax)² + (Flat/FlatMax)² ≤ 1 + ε`
for `ε = 0.003` (the slack coming only from the `1e-6` division guard), and
both components are always scaled by one common factor `s ∈ (0, 1]`, with
`s < 1` exactly in the saturated case; neither axis is ever clamped
independently. -/
theorem friction_ellipse_invariant (fLong fLat longCap latCap : ℝ)
    (hl : 1 / 1000 ≤ longCap) (ht : 1 / 1000 ≤ latCap) :
    (((saturateWheel fLong fLat longCap latCap).1 / longCap) ^ 2 +
        ((saturateWheel fLong fLat longCap latCap).2 / latCap) ^ 2 ≤ 1 + 3 / 1000) ∧
      ∃ s : ℝ, 0 < s ∧ s ≤ 1 ∧
        (saturateWheel fLong fLat longCap latCap).1 = s * fLong ∧
        (saturateWheel fLong fLat longCap latCap).2 = s * fLat ∧
        ((fLong / (longCap + 1 / 1000000)) ^ 2 +
            (fLat / (latCap + 1 / 1000000)) ^ 2 > 1 → s < 1) := by
  have hl6 : longCap > 1 / 1000000 := lt_of_lt_of_le (by norm_num) hl
  have ht6 : latCap > 1 / 1000000 := lt_of_lt_of_le (by norm_num) ht
  have hl0 : (0 : ℝ) < longCap := lt_of_lt_of_le (by norm_num) hl
  have heq := saturateWheel_eq fLong fLat longCap latCap hl6 ht6
  have hb1 := cap_ratio_sq_le fLong longCap hl
  have hb2 := cap_ratio_sq_le fLat latCap ht
  set gl : ℝ := longCap + 1 / 1000000 with hgl
  set gt : ℝ := latCap + 1 / 1000000 with hgt
  set S : ℝ := (fLong / gl) ^ 2 + (fLat / gt) ^ 2 with hS
  have hS0 : 0 ≤ S := by rw [hS]; positivity
  have hsq : Real.sqrt S ^ 2 = S := Real.sq_sqrt hS0
  have hkc : ((1001 : ℝ) / 1000) ^ 2 = 1002001 / 1000000 := by norm_num
  rw [hkc] at hb1 hb2
  by_cases hgt1 : Real.sqrt S > 1
  · -- saturated branch: both components scaled by 1/sqrt S
    have hcond : Real.sqrt S > 1 ∧ (longCap > 0 ∨ latCap > 0) := ⟨hgt1, Or.inl hl0⟩
    rw [if_pos hcond] at heq
    have hSpos : (0 : ℝ) < S := by nlinarith [Real.sqrt_nonneg S]
    have hsqpos : (0 : ℝ) < Real.sqrt S := lt_trans one_pos hgt1
    have hpost : (fLong * (1 / Real.sqrt S) / gl) ^ 2 +
        (fLat * (1 / Real.sqrt S) / gt) ^ 2 = 1 := by
      have h1 : (fLong * (1 / Real.sqrt S) / gl) ^ 2 =
          (fLong / gl) ^ 2 * (1 / Real.sqrt S) ^ 2 := by ring
      have h2 : (fLat * (1 / Real.sqrt S) / gt) ^ 2 =
          (fLat / gt) ^ 2 * (1 / Real.sqrt S) ^ 2 := by ring
      rw [h1, h2, ← add_mul, ← hS, one_div, inv_pow, hsq]
      exact mul_inv_cancel₀ (ne_of_gt hSpos)
    constructor
    · have hc1 : (fLong * (1 / Real.sqrt S) / longCap) ^ 2 ≤
          1002001 / 1000000 * (fLong * (1 / Real.sqrt S) / gl) ^ 2 := by
        rw [hgl, hkc.symm]
        exact cap_ratio_sq_le (fLong * (1 / Real.sqrt S)) longCap hl
      have hc2 : (fLat * (1 / Real.sqrt S) / latCap) ^ 2 ≤
          1002001 / 1000000 * (fLat * (1 / Real.sqrt S) / gt) ^ 2 := by
        rw [hgt, hkc.symm]
        exact cap_ratio_sq_le (fLat * (1 / Real.sqrt S)) latCap ht
      rw [heq]
      dsimp only
      linarith [hc1, hc2, hpost]
    · refine ⟨1 / Real.sqrt S, by positivity, ?_, ?_, ?_, ?_⟩
      · rw [div_le_one hsqpos]; exact le_of_lt hgt1
      · rw [heq]; ring
      · rw [heq]; ring
      · intro _
        rw [div_lt_one hsqpos]; exact hgt1
  · -- unsaturated branch: forces unchanged, guarded sum at most 1
    have hcond : ¬(Real.sqrt S > 1 ∧ (longCap > 0 ∨ latCap > 0)) := by
      intro h; exact hgt1 h.1
    rw [if_neg hcond] at heq
    have hSle : S ≤ 1 := by nlinarith [Real.sqrt_nonneg S, hsq, not_lt.mp hgt1]
    constructor
    · have hmul := mul_le_mul_of_nonneg_left hSle
        (show (0 : ℝ) ≤ 1002001 / 1000000 by norm_num)
      rw [mul_one, hS] at hmul
      rw [heq]
      dsimp only
      linarith [hb1, hb2, hmul]
    · refine ⟨1, one_pos, le_refl 1, ?_, ?_, ?_⟩
      · rw [heq]; ring
      · rw [heq]; ring
      · intro hgt'
        exact absurd hSle (not_le.mpr hgt')

/-- Witness for C1 at a concrete wheel: zero forces against unit caps. -/
theorem friction_ellipse_invariant_witness :
    (1 : ℝ) / 1000 ≤ 1 ∧
      ((saturateWheel 0 0 1 1).1 / 1) ^ 2 + ((saturateWheel 0 0 1 1).2 / 1) ^ 2 ≤
        1 + 3 / 1000 :=
  ⟨by norm_num, (friction_ellipse_invariant 0 0 1 1 (by norm_num) (by norm_num)).1⟩

end Rockport

namespace Rockport

theorem clamp_of_le_of_le {v lo hi : ℝ} (h1 : lo ≤ v) (h2 : v ≤ hi) : clamp v lo hi = v := by
  unfold clamp
  rw [min_eq_right h2, max_eq_right h1]

theorem lo_le_clamp (v lo hi : ℝ) : lo ≤ clamp v lo hi := le_max_left _ _

theorem clamp_le_hi {v lo hi : ℝ} (h : lo ≤ hi) : clamp v lo hi ≤ hi :=
  max_le h (min_le_left _ _)

theorem clampToRange_of_le_of_le {v lo hi : ℝ} (h1 : lo ≤ v) (h2 : v ≤ hi) :
    clampToRange v lo hi = v := by
  unfold clampToRange
  rw [min_eq_right h2, max_eq_right h1]

/-- C4: in a calibration round with a 0–100 target, when the measurement and
the target are positive, `adjustAcceleration` rewrites the working config
exactly as specified: with `ratio = clampToRange(measured/target, 0.25, 4)`,
the new drivetrain efficiency is `clamp(eff / ratio^0.92, 0.6, 1)` blended
55 % toward the current value, the new rolling resistance is
`clamp(rolling·(1+(ratio−1)·0.45), 0.0045, 0.03)` blended 35 %, no other
field changes; and the tolerance gate of the calibration loop leaves the
config untouched when the measurement is within ±4 %. -/
theorem adjustAcceleration_spec (cfg : CarConfig) (measured target : ℝ)
    (hm : 0 < measured) (ht : 0 < target) :
    ((adjustAcceleration cfg measured target).drivetrainEfficiency =
        cfg.drivetrainEfficiency * (1 - 0.55) +
          clampToRange (cfg.drivetrainEfficiency /
            clampToRange (measured / target) 0.25 4 ^ (0.92 : ℝ)) 0.6 1 * 0.55) ∧
      ((adjustAcceleration cfg measured target).rollingResistanceCoeff =
        cfg.rollingResistanceCoeff * (1 - 0.35) +
          clampToRange (cfg.rollingResistanceCoeff *
            (1 + (clampToRange (measured / target) 0.25 4 - 1) * 0.45)) 0.0045 0.03 * 0.35) ∧
      (adjustAcceleration cfg measured target).dragCoefficient = cfg.dragCoefficient ∧
      (adjustAcceleration cfg measured target).massKg = cfg.massKg ∧
      (isWithinTolerance measured target 0.04 →
        (if isWithinTolerance measured target 0.04 then cfg
         else adjustAcceleration cfg measured target) = cfg) := by
  have hguard : ¬(measured ≤ 0 ∨ target ≤ 0) := by push_neg; exact ⟨hm, ht⟩
  have halpha55 : clampToRange 0.55 0 1 = (0.55 : ℝ) :=
    clampToRange_of_le_of_le (by norm_num) (by norm_num)
  have halpha35 : clampToRange 0.35 0 1 = (0.35 : ℝ) :=
    clampToRange_of_le_of_le (by norm_num) (by norm_num)
  refine ⟨?_, ?_, ?_, ?_, fun h => if_pos h⟩ <;>
    simp only [adjustAcceleration, if_neg hguard, mix, halpha55, halpha35]

/-- Witness for C4 at measured = 2 s against target = 1 s. -/
theorem adjustAcceleration_spec_witness :
    (0 : ℝ) < 2 ∧
      (adjustAcceleration defaultCarConfig 2 1).dragCoefficient =
        defaultCarConfig.dragCoefficient :=
  ⟨by norm_num,
    (adjustAcceleration_spec defaultCarConfig 2 1 (by norm_num) (by norm_num)).2.2.1⟩

end Rockport

namespace Rockport

theorem peakRpm_ge (cfg : CarConfig) : (2500 : ℝ) ≤ cfg.peakRpm := le_max_left _ _

theorem peakRpm_default_le : CarConfig.peakRpm defaultCarConfig ≤ 7000 := by
  unfold CarConfig.peakRpm
  apply max_le (by norm_num)
  have hpi : (3.141592 : ℝ) < Real.pi := Real.pi_gt_d6
  have hA : (defaultCarConfig.horsepower * 745.7 /
      (defaultCarConfig.peakTorqueNm + 1 / 1000000) : ℝ) ≤ 591 := by
    simp only [defaultCarConfig]
    rw [div_le_iff₀ (by norm_num)]
    norm_num
  have hA0 : (0 : ℝ) ≤ defaultCarConfig.horsepower * 745.7 /
      (defaultCarConfig.peakTorqueNm + 1 / 1000000) := by
    simp only [defaultCarConfig]
    positivity
  have hB : (60 / (2 * Real.pi) : ℝ) ≤ 60 / (2 * 3.141592) :=
    div_le_div_of_nonneg_left (by norm_num) (by norm_num) (by nlinarith)
  have hB0 : (0 : ℝ) ≤ 60 / (2 * Real.pi) := by positivity
  calc defaultCarConfig.horsepower * 745.7 /
        (defaultCarConfig.peakTorqueNm + 1 / 1000000) * (60 / (2 * Real.pi))
      ≤ 591 * (60 / (2 * 3.141592)) := mul_le_mul hA hB hB0 (by norm_num)
    _ ≤ 7000 := by norm_num

/-- C3: `Car.torqueAtRpm` is piecewise in RPM.  With a positive peak torque
and the computed peak RPM below the rev limiter: from idle to peak RPM the
torque equals peak torque times `0.65 + 0.35·r^1.25` (rising from 65 % of
peak at idle); from peak RPM to the rev limiter it equals `hp·5252/rpm`
clamped to `[45 %, 100 %]` of peak torque; above the rev limiter it stays
between 5 % and 12 % of peak torque, the factor being `0.12·(1−overshoot)`
clamped to `[0.05, 0.12]` for the overshoot ratio `(rpm−limiter)/600`. -/
theorem torqueAtRpm_piecewise (cfg : CarConfig) (rpm : ℝ)
    (hpt : 0 < cfg.peakTorqueNm) (hpl : cfg.peakRpm ≤ cfg.revLimiterRpm) :
    (CarConfig.idleRpm ≤ rpm → rpm ≤ cfg.peakRpm →
      torqueAtRpm cfg rpm = cfg.peakTorqueNm *
        (0.65 + 0.35 * ((rpm - CarConfig.idleRpm) /
          max 1 (cfg.peakRpm - CarConfig.idleRpm)) ^ (1.25 : ℝ))) ∧
      (cfg.peakRpm < rpm → rpm ≤ cfg.revLimiterRpm →
        torqueAtRpm cfg rpm =
          clamp (cfg.horsepower * 5252 / rpm) (cfg.peakTorqueNm * 0.45) cfg.peakTorqueNm) ∧
      (cfg.revLimiterRpm < rpm →
        cfg.peakTorqueNm * 0.05 ≤ torqueAtRpm cfg rpm ∧
        torqueAtRpm cfg rpm ≤ cfg.peakTorqueNm * 0.12) := by
  have hpeak := peakRpm_ge cfg
  have hidle : (CarConfig.idleRpm : ℝ) = 900 := rfl
  refine ⟨?_, ?_, ?_⟩
  · intro h1 h2
    have heff : clamp rpm CarConfig.idleRpm (cfg.revLimiterRpm + 600) = rpm :=
      clamp_of_le_of_le h1 (by linarith)
    have hden : (0 : ℝ) < max 1 (cfg.peakRpm - CarConfig.idleRpm) :=
      lt_of_lt_of_le one_pos (le_max_left _ _)
    have hratio0 : 0 ≤ (rpm - CarConfig.idleRpm) / max 1 (cfg.peakRpm - CarConfig.idleRpm) := by
      apply div_nonneg (by linarith) (le_of_lt hden)
    have hratio1 : (rpm - CarConfig.idleRpm) / max 1 (cfg.peakRpm - CarConfig.idleRpm) ≤ 1 := by
      rw [div_le_one hden]
      calc rpm - CarConfig.idleRpm ≤ cfg.peakRpm - CarConfig.idleRpm := by linarith
        _ ≤ max 1 (cfg.peakRpm - CarConfig.idleRpm) := le_max_right _ _
    have hclampr : clamp ((rpm - CarConfig.idleRpm) /
        max 1 (cfg.peakRpm - CarConfig.idleRpm)) 0 1 =
        (rpm - CarConfig.idleRpm) / max 1 (cfg.peakRpm - CarConfig.idleRpm) :=
      clamp_of_le_of_le hratio0 hratio1
    have hshaped0 : 0 ≤ ((rpm - CarConfig.idleRpm) /
        max 1 (cfg.peakRpm - CarConfig.idleRpm)) ^ (1.25 : ℝ) :=
      Real.rpow_nonneg hratio0 _
    have hshaped1 : ((rpm - CarConfig.idleRpm) /
        max 1 (cfg.peakRpm - CarConfig.idleRpm)) ^ (1.25 : ℝ) ≤ 1 :=
      Real.rpow_le_one hratio0 hratio1 (by norm_num)
    have hfac : clamp (0.65 + 0.35 * ((rpm - CarConfig.idleRpm) /
        max 1 (cfg.peakRpm - CarConfig.idleRpm)) ^ (1.25 : ℝ)) 0.45 1.05 =
        0.65 + 0.35 * ((rpm - CarConfig.idleRpm) /
          max 1 (cfg.peakRpm - CarConfig.idleRpm)) ^ (1.25 : ℝ) :=
      clamp_of_le_of_le (by linarith) (by linarith)
    simp only [torqueAtRpm, heff, if_pos h2, hclampr, hfac]
  · intro h1 h2
    have heff : clamp rpm CarConfig.idleRpm (cfg.revLimiterRpm + 600) = rpm :=
      clamp_of_le_of_le (by rw [hidle]; linarith) (by linarith)
    have hnotpeak : ¬(rpm ≤ cfg.peakRpm) := not_le.mpr h1
    have hmax : max rpm 1 = rpm := max_eq_left (by linarith)
    simp only [torqueAtRpm, heff, if_neg hnotpeak, if_pos h2, hmax]
  · intro h1
    have hlim0 : (900 : ℝ) < cfg.revLimiterRpm := by linarith
    have heff : clamp rpm CarConfig.idleRpm (cfg.revLimiterRpm + 600) =
        min (cfg.revLimiterRpm + 600) rpm := by
      unfold clamp
      apply max_eq_right
      rw [hidle]
      rcases le_total rpm (cfg.revLimiterRpm + 600) with h | h
      · rw [min_eq_right h]; linarith
      · rw [min_eq_left h]; linarith
    have hgtlim : cfg.revLimiterRpm < min (cfg.revLimiterRpm + 600) rpm := by
      apply lt_min (by linarith) h1
    have hnotpeak : ¬(min (cfg.revLimiterRpm + 600) rpm ≤ cfg.peakRpm) := by
      push_neg
      exact lt_of_le_of_lt hpl hgtlim
    have hnotlim : ¬(min (cfg.revLimiterRpm + 600) rpm ≤ cfg.revLimiterRpm) :=
      not_le.mpr hgtlim
    have hcl : cfg.peakTorqueNm * 0.05 ≤ cfg.peakTorqueNm *
        clamp (0.12 * (1 - clamp ((min (cfg.revLimiterRpm + 600) rpm -
          cfg.revLimiterRpm) / 600) 0 1)) 0.05 0.12 ∧
        cfg.peakTorqueNm * clamp (0.12 * (1 - clamp ((min (cfg.revLimiterRpm + 600) rpm -
          cfg.revLimiterRpm) / 600) 0 1)) 0.05 0.12 ≤ cfg.peakTorqueNm * 0.12 := by
      constructor
      · exact mul_le_mul_of_nonneg_left (lo_le_clamp _ _ _) (le_of_lt hpt)
      · exact mul_le_mul_of_nonneg_left (clamp_le_hi (by norm_num)) (le_of_lt hpt)
    simp only [torqueAtRpm, heff, if_neg hnotpeak, if_neg hnotlim]
    exact hcl

/-- Witness for C3: the default config at idle RPM (900), in the rising
power-law branch. -/
theorem torqueAtRpm_piecewise_witness :
    (0 : ℝ) < defaultCarConfig.peakTorqueNm ∧
      CarConfig.peakRpm defaultCarConfig ≤ defaultCarConfig.revLimiterRpm ∧
      torqueAtRpm defaultCarConfig 900 = defaultCarConfig.peakTorqueNm *
        (0.65 + 0.35 * ((900 - CarConfig.idleRpm) /
          max 1 (CarConfig.peakRpm defaultCarConfig - CarConfig.idleRpm)) ^ (1.25 : ℝ)) := by
  have hpt : (0 : ℝ) < defaultCarConfig.peakTorqueNm := by
    simp only [defaultCarConfig]; norm_num
  have hpl : CarConfig.peakRpm defaultCarConfig ≤ defaultCarConfig.revLimiterRpm := by
    have h1 := peakRpm_default_le
    have h2 : defaultCarConfig.revLimiterRpm = 7000 := rfl
    rw [h2]; exact h1
  refine ⟨hpt, hpl, ?_⟩
  exact (torqueAtRpm_piecewise defaultCarConfig 900 hpt hpl).1 (le_refl _)
    (le_trans (by norm_num) (peakRpm_ge defaultCarConfig))

end Rockport

namespace Rockport

theorem isRecordCurrent_iff (version : ℕ) (e : Option CalibRecord) :
    isRecordCurrent version e = true ↔
      ∃ r, e = some r ∧ r.version = version ∧ r.verified = true := by
  cases e with
  | none => simp [isRecordCurrent]
  | some r =>
    simp only [isRecordCurrent, Bool.and_eq_true, beq_iff_eq, Option.some.injEq]
    constructor
    · rintro ⟨h1, h2⟩
      exact ⟨r, rfl, h1.symm, h2⟩
    · rintro ⟨r', hr', h1, h2⟩
      cases hr'
      exact ⟨h1.symm, h2⟩

/-- C7: in the per-car lookup of `verifyAllCars`, a car is skipped without
any measurement or record rewrite exactly when its stored record's version
matches the current schema version, the record's verified flag is true, and
the spec is already flagged `performanceVerified`; a car failing any of the
three conditions that is not captured by the spec-flag shortcut branch is
queued for calibration. -/
theorem verifyAllCars_cache_classification (version : ℕ) (existing : Option CalibRecord)
    (specVerified : Bool) :
    (classifyCar version existing specVerified = .skip ↔
      (∃ r, existing = some r ∧ r.version = version ∧ r.verified = true) ∧
        specVerified = true) ∧
      (¬((∃ r, existing = some r ∧ r.version = version ∧ r.verified = true) ∧
            specVerified = true) →
        classifyCar version existing specVerified ≠ .shortcut →
        classifyCar version existing specVerified = .queue) := by
  have hiff := isRecordCurrent_iff version existing
  constructor
  · unfold classifyCar
    by_cases h : (isRecordCurrent version existing && specVerified) = true
    · rw [if_pos h]
      simp only [Bool.and_eq_true] at h
      simp only [true_iff]
      exact ⟨hiff.mp h.1, h.2⟩
    · rw [if_neg h]
      simp only [Bool.and_eq_true, not_and] at h
      constructor
      · intro hc
        split at hc <;> simp_all
      · rintro ⟨hr, hs⟩
        exact absurd (hiff.mpr hr) (fun hcur => by simp [hcur, hs] at h)
  · intro hfail hshort
    unfold classifyCar at hshort ⊢
    by_cases h : (isRecordCurrent version existing && specVerified) = true
    · simp only [Bool.and_eq_true] at h
      exact absurd ⟨hiff.mp h.1, h.2⟩ hfail
    · rw [if_neg h] at hshort ⊢
      by_cases hs : specVerified = true
      · rw [if_pos hs] at hshort
        exact absurd rfl hshort
      · rw [if_neg hs]

end Rockport

namespace Rockport

/-- Witness for C7 at a car with no stored record and an unverified spec. -/
theorem verifyAllCars_cache_classification_witness :
    ¬((∃ r : CalibRecord, (none : Option CalibRecord) = some r ∧
          r.version = 1 ∧ r.verified = true) ∧ false = true) ∧
      classifyCar 1 none false = .queue := by
  have hfail : ¬((∃ r : CalibRecord, (none : Option CalibRecord) = some r ∧
      r.version = 1 ∧ r.verified = true) ∧ false = true) := by simp
  refine ⟨hfail, (verifyAllCars_cache_classification 1 none false).2 hfail ?_⟩
  simp [classifyCar, isRecordCurrent]

theorem reverseTransition_gear_auto (rm : Bool) (g : ℤ) (th sp : ℝ) (h1 : 1 ≤ g) :
    (reverseTransition false rm g th sp).2.2 = g := by
  unfold reverseTransition
  split_ifs <;> first | rfl | omega

theorem autoShift_bounds (cfg : CarConfig) (rev : Bool) (rpm2 th3 : ℝ) (g : ℤ)
    (h1 : 1 ≤ g) (h2 : g ≤ (cfg.gearRatios.length : ℤ) - 1) :
    1 ≤ autoShift cfg false rev rpm2 th3 g ∧
      autoShift cfg false rev rpm2 th3 g ≤ (cfg.gearRatios.length : ℤ) - 1 := by
  unfold autoShift
  split_ifs <;> omega

theorem updatePowertrain_gear_bounds (cfg : CarConfig) (throttleInput vLong dt : ℝ)
    (s : CarState) (hm : s.manualMode = false) (h1 : 1 ≤ s.gearIndex)
    (h2 : s.gearIndex ≤ (cfg.gearRatios.length : ℤ) - 1) :
    1 ≤ (updatePowertrain cfg throttleInput vLong dt s).gearIndex ∧
      (updatePowertrain cfg throttleInput vLong dt s).gearIndex ≤
        (cfg.gearRatios.length : ℤ) - 1 ∧
      (updatePowertrain cfg throttleInput vLong dt s).manualMode = false := by
  dsimp only [updatePowertrain]
  rw [hm, reverseTransition_gear_auto _ _ _ _ h1]
  exact ⟨(autoShift_bounds cfg _ _ _ _ h1 h2).1, (autoShift_bounds cfg _ _ _ _ h1 h2).2, rfl⟩

theorem carUpdate_gear_eq (cfg : CarConfig) (s : CarState) (ti bi si dt : ℝ) :
    (carUpdate cfg s ti bi si dt).gearIndex =
        (updatePowertrain cfg ti (Vec2.dot s.velocity ⟨Real.cos s.heading, Real.sin s.heading⟩)
          dt s).gearIndex ∧
      (carUpdate cfg s ti bi si dt).manualMode =
        (updatePowertrain cfg ti (Vec2.dot s.velocity ⟨Real.cos s.heading, Real.sin s.heading⟩)
          dt s).manualMode := ⟨rfl, rfl⟩

theorem updatePowertrain_manual (cfg : CarConfig) (throttleInput vLong dt : ℝ)
    (s : CarState) :
    (updatePowertrain cfg throttleInput vLong dt s).manualMode = s.manualMode := rfl

/-- C10: a car in automatic mode with at least two gear ratios keeps its
gear index inside `[1, N]` (`N = gearRatios.length − 1`) across any sequence
of `Car.update` calls: it never reaches neutral (0) or the manual reverse
slot (−1), and the updates never leave automatic mode. -/
theorem auto_gear_stays_forward (cfg : CarConfig) (s : CarState) (inputs : List Input)
    (_hlen : 2 ≤ cfg.gearRatios.length)
    (hm : s.manualMode = false) (h1 : 1 ≤ s.gearIndex)
    (h2 : s.gearIndex ≤ (cfg.gearRatios.length : ℤ) - 1) :
    1 ≤ (runUpdates cfg s inputs).gearIndex ∧
      (runUpdates cfg s inputs).gearIndex ≤ (cfg.gearRatios.length : ℤ) - 1 ∧
      (runUpdates cfg s inputs).manualMode = false := by
  induction inputs generalizing s with
  | nil => exact ⟨h1, h2, hm⟩
  | cons i rest ih =>
    have hstep := updatePowertrain_gear_bounds cfg i.throttleInput
      (Vec2.dot s.velocity ⟨Real.cos s.heading, Real.sin s.heading⟩) i.dt s hm h1 h2
    have hgear := carUpdate_gear_eq cfg s i.throttleInput i.brakeInput i.steerInput i.dt
    have hc1 : 1 ≤ (carUpdate cfg s i.throttleInput i.brakeInput i.steerInput i.dt).gearIndex := by
      rw [hgear.1]; exact hstep.1
    have hc2 : (carUpdate cfg s i.throttleInput i.brakeInput i.steerInput i.dt).gearIndex ≤
        (cfg.gearRatios.length : ℤ) - 1 := by
      rw [hgear.1]; exact hstep.2.1
    have hcm : (carUpdate cfg s i.throttleInput i.brakeInput i.steerInput i.dt).manualMode =
        false := by
      rw [hgear.2]; exact hstep.2.2
    exact ih _ hcm hc1 hc2

/-- Witness for C10: the default config's test car, run on an empty input
list. -/
theorem auto_gear_stays_forward_witness :
    2 ≤ defaultCarConfig.gearRatios.length ∧
      1 ≤ (runUpdates defaultCarConfig (initTestCar defaultCarConfig) []).gearIndex := by
  have hlen : 2 ≤ defaultCarConfig.gearRatios.length := by
    simp [defaultCarConfig]
  have hg : (initTestCar defaultCarConfig).gearIndex = 1 := by
    simp [initTestCar, defaultCarConfig]
  refine ⟨hlen, (auto_gear_stays_forward defaultCarConfig (initTestCar defaultCarConfig) []
    hlen rfl ?_ ?_).1⟩
  · rw [hg]
  · rw [hg]; simp [defaultCarConfig]

end Rockport

namespace Rockport

theorem mzhAux_clock_irrelevant (cfg : CarConfig) (clk1 clk2 : Clock) :
    ∀ (fuel : ℕ) (s : CarState) (t p : ℝ) (i1 i2 tk : ℕ),
      mzhAux cfg none clk1 fuel s t p i1 tk =
        ((mzhAux cfg none clk2 fuel s t p i2 tk).1,
         (mzhAux cfg none clk2 fuel s t p i2 tk).2.1, i1) := by
  intro fuel
  induction fuel with
  | zero => intro s t p i1 i2 tk; rfl
  | succ n ih =>
    intro s t p i1 i2 tk
    simp only [mzhAux]
    by_cases h15 : t < 15
    · rw [if_pos h15, if_pos h15]
      simp only [Bool.false_eq_true, if_false]
      by_cases hsp : Vec2.len (carUpdate cfg s 1 0 0 (1 / 200)).velocity * 3.6 ≥ 100
      · rw [if_pos hsp, if_pos hsp]
      · rw [if_neg hsp, if_neg hsp]
        exact ih _ _ _ i1 i2 _
    · rw [if_neg h15, if_neg h15]

theorem mtsAux_clock_irrelevant (cfg : CarConfig) (clk1 clk2 : Clock) :
    ∀ (fuel : ℕ) (s : CarState) (t m st : ℝ) (i1 i2 tk : ℕ),
      mtsAux cfg none clk1 fuel s t m st i1 tk =
        ((mtsAux cfg none clk2 fuel s t m st i2 tk).1,
         (mtsAux cfg none clk2 fuel s t m st i2 tk).2.1, i1) := by
  intro fuel
  induction fuel with
  | zero => intro s t m st i1 i2 tk; rfl
  | succ n ih =>
    intro s t m st i1 i2 tk
    simp only [mtsAux]
    by_cases h160 : t < 160
    · rw [if_pos h160, if_pos h160]
      simp only [Bool.false_eq_true, if_false]
      by_cases hbrk : t + 1 / 200 > 5 ∧
          (if Vec2.len (carUpdate cfg s 1 0 0 (1 / 200)).velocity * 3.6 > m + 0.05
           then ((Vec2.len (carUpdate cfg s 1 0 0 (1 / 200)).velocity * 3.6 : ℝ), (0 : ℝ))
           else if |Vec2.len (carUpdate cfg s 1 0 0 (1 / 200)).velocity * 3.6 - m| < 0.1
           then (m, st + 1 / 200)
           else (m, st + 1 / 200 * 0.25)).2 ≥ 7
      · rw [if_pos hbrk, if_pos hbrk]
      · rw [if_neg hbrk, if_neg hbrk]
        exact ih _ _ _ _ i1 i2 _
    · rw [if_neg h160, if_neg h160]

/-- C2: the simulation and measurement pipeline is deterministic.  A
`Car.update` trajectory is a pure function of config, initial state, and
input sequence — two runs from equal starting points coincide — and with no
wall-clock deadline `measureZeroToHundred` / `measureTopSpeed` never consult
the clock: their results (and tick counts) are identical across any two
clocks and call indices, i.e. they are pure functions of the config. -/
theorem determinism_of_runs :
    (∀ (cfg : CarConfig) (s1 s2 : CarState) (inputs : List Input), s1 = s2 →
        runUpdates cfg s1 inputs = runUpdates cfg s2 inputs) ∧
      (∀ (cfg : CarConfig) (clk1 clk2 : Clock) (i1 i2 : ℕ),
        (measureZeroToHundred cfg none clk1 i1).1 = (measureZeroToHundred cfg none clk2 i2).1 ∧
        (measureZeroToHundred cfg none clk1 i1).2.1 =
          (measureZeroToHundred cfg none clk2 i2).2.1) ∧
      (∀ (cfg : CarConfig) (clk1 clk2 : Clock) (i1 i2 : ℕ),
        (measureTopSpeed cfg none clk1 i1).1 = (measureTopSpeed cfg none clk2 i2).1 ∧
        (measureTopSpeed cfg none clk1 i1).2.1 = (measureTopSpeed cfg none clk2 i2).2.1) := by
  refine ⟨fun cfg s1 s2 inputs h => by rw [h], ?_, ?_⟩
  · intro cfg clk1 clk2 i1 i2
    have h := mzhAux_clock_irrelevant cfg clk1 clk2 3001 (initTestCar cfg) 0 0 i1 i2 0
    unfold measureZeroToHundred
    rw [h]
    exact ⟨rfl, rfl⟩
  · intro cfg clk1 clk2 i1 i2
    have h := mtsAux_clock_irrelevant cfg clk1 clk2 32001 (initTestCar cfg) 0 0 0 i1 i2 0
    unfold measureTopSpeed
    rw [h]
    exact ⟨rfl, rfl⟩

/-- Witness for C2: the two-run equality applied at the default config's
test car with an empty input sequence. -/
theorem determinism_of_runs_witness :
    initTestCar defaultCarConfig = initTestCar defaultCarConfig ∧
      runUpdates defaultCarConfig (initTestCar defaultCarConfig) [] =
        runUpdates defaultCarConfig (initTestCar defaultCarConfig) [] :=
  ⟨rfl, determinism_of_runs.1 defaultCarConfig (initTestCar defaultCarConfig)
    (initTestCar defaultCarConfig) [] rfl⟩

end Rockport

namespace Rockport

/-- C5: when `extractTargets` recognises no performance metric,
`runCalibration` is a no-op: it returns a record with `verified = true`,
`overrides = null`, `iterations = 0`, and a "skipped" note, and runs zero
simulation ticks (no test car is ever stepped). -/
theorem no_target_skip (spec : Spec) (clock : Clock) (timeoutMs : ℕ)
    (maxIterationsOpt : Option ℕ) (h : extractTargets spec = none) :
    (runCalibration spec clock timeoutMs maxIterationsOpt).1.verified = true ∧
      (runCalibration spec clock timeoutMs maxIterationsOpt).1.overrides = none ∧
      (runCalibration spec clock timeoutMs maxIterationsOpt).1.iterations = 0 ∧
      (runCalibration spec clock timeoutMs maxIterationsOpt).1.note =
        some ("No performance targets provided; skipped calibration.") ∧
      (runCalibration spec clock timeoutMs maxIterationsOpt).2 = 0 := by
  simp only [runCalibration, h]
  exact ⟨trivial, trivial, trivial, trivial, trivial⟩

theorem extractTargets_empty : extractTargets {} = none := by
  simp only [extractTargets]
  exact if_pos ⟨rfl, rfl⟩

/-- Witness for C5: the empty spec, a constant clock, zero timeout. -/
theorem no_target_skip_witness :
    extractTargets {} = none ∧
      (runCalibration {} (fun _ => 0) 0 none).1.verified = true ∧
      (runCalibration {} (fun _ => 0) 0 none).2 = 0 :=
  ⟨extractTargets_empty,
    (no_target_skip {} (fun _ => 0) 0 none extractTargets_empty).1,
    (no_target_skip {} (fun _ => 0) 0 none extractTargets_empty).2.2.2.2⟩

end Rockport

namespace Rockport

theorem mzhAux_succ_abort (cfg : CarConfig) (d : ℝ) (clock : Clock) (fuel : ℕ)
    (s : CarState) (t p : ℝ) (i tk : ℕ) (h15 : t < 15) (h : clock i > d) :
    mzhAux cfg (some d) clock (fuel + 1) s t p i tk = (⟨none, false⟩, tk, i + 1) := by
  simp only [mzhAux]
  rw [if_pos h15]
  simp only [decide_eq_true h, if_true]

theorem measureZeroToHundred_abort (cfg : CarConfig) (d : ℝ) (clock : Clock) (i : ℕ)
    (h : clock i > d) :
    measureZeroToHundred cfg (some d) clock i = (⟨none, false⟩, 0, i + 1) := by
  unfold measureZeroToHundred
  rw [show (3001 : ℕ) = 3000 + 1 from rfl]
  exact mzhAux_succ_abort cfg d clock 3000 _ 0 0 i 0 (by norm_num) h

theorem mtsAux_succ_abort (cfg : CarConfig) (d : ℝ) (clock : Clock) (fuel : ℕ)
    (s : CarState) (t m st : ℝ) (i tk : ℕ) (h160 : t < 160) (h : clock i > d) :
    mtsAux cfg (some d) clock (fuel + 1) s t m st i tk = (⟨some m, t⟩, tk, i + 1) := by
  simp only [mtsAux]
  rw [if_pos h160]
  simp only [decide_eq_true h, if_true]

theorem measureTopSpeed_abort (cfg : CarConfig) (d : ℝ) (clock : Clock) (i : ℕ)
    (h : clock i > d) :
    measureTopSpeed cfg (some d) clock i = (⟨some 0, 0⟩, 0, i + 1) := by
  unfold measureTopSpeed
  rw [show (32001 : ℕ) = 32000 + 1 from rfl]
  exact mtsAux_succ_abort cfg d clock 32000 _ 0 0 0 i 0 (by norm_num) h

theorem calibLoop_timeout (targets : Targets) (d : ℝ) (clock : Clock) (n : ℕ)
    (st : CalibLoopState) (h : clock st.idx > d) :
    calibLoop targets d clock (n + 1) st =
      { st with actualIterations := st.actualIterations + 1, timedOut := true,
                idx := st.idx + 1 } := by
  simp only [calibLoop]
  rw [if_pos h]

/-- C6: with at least one performance target and a strictly increasing wall
clock, `runCalibration` with `timeoutMs = 0` returns (without any failure) a
record with `verified = false` and a note containing "timed out", and runs
zero simulation ticks. -/
theorem forced_timeout (spec : Spec) (targets : Targets) (clock : Clock)
    (hT : extractTargets spec = some targets)
    (hclk : ∀ i, 0 < i → clock 0 < clock i) :
    (runCalibration spec clock 0 none).1.verified = false ∧
      (∃ pre post, (runCalibration spec clock 0 none).1.note =
        some (pre ++ "timed out" ++ post)) ∧
      (runCalibration spec clock 0 none).2 = 0 := by
  have hd1 : clock 1 > clock 0 + ((0 : ℕ) : ℝ) := by
    simpa using hclk 1 one_pos
  have hd2 : clock 2 > clock 0 + ((0 : ℕ) : ℝ) := by
    simpa using hclk 2 (by norm_num)
  have hd3 : clock 3 > clock 0 + ((0 : ℕ) : ℝ) := by
    simpa using hclk 3 (by norm_num)
  simp only [runCalibration, hT]
  rw [show (max 1 ((none : Option ℕ).getD 12)) = 11 + 1 from rfl]
  rw [calibLoop_timeout _ _ _ _ _ hd1]
  rcases targets with ⟨top, zero⟩
  cases top <;> cases zero <;>
    simp only [measureZeroToHundred_abort _ _ _ _ hd2, measureTopSpeed_abort _ _ _ _ hd2,
      measureTopSpeed_abort _ _ _ _ hd3] <;>
    exact ⟨by trivial, ⟨"Calibration ", " after 0 ms", by trivial⟩, by trivial⟩

theorem extractTargets_top100 :
    extractTargets { nums := { topSpeedKph := some 100 } } = some ⟨some 100, none⟩ := by
  have hkey : findNumericKey { nums := { topSpeedKph := some 100 } }
      SpecNums.topSpeedKph = some 100 := by
    simp only [findNumericKey, Spec.containers, Option.toList_none, List.append_nil,
      List.filterMap]
    norm_num
  have htop : findNumeric { nums := { topSpeedKph := some 100 } }
      [SpecNums.topSpeedKph, SpecNums.topSpeedKmH, SpecNums.topSpeed,
       SpecNums.vMaxKph, SpecNums.vMaxKmH] = some 100 := by
    simp only [findNumeric, List.filterMap, hkey]
    rfl
  simp only [extractTargets, htop]
  rw [if_neg]
  · rfl
  · intro hcontra
    simp at hcontra

/-- Witness for C6: a spec whose only metric is a 100 km/h top speed, under
the identity clock. -/
theorem forced_timeout_witness :
    extractTargets { nums := { topSpeedKph := some 100 } } = some ⟨some 100, none⟩ ∧
      (runCalibration { nums := { topSpeedKph := some 100 } }
        (fun n => (n : ℝ)) 0 none).1.verified = false := by
  refine ⟨extractTargets_top100,
    (forced_timeout _ ⟨some 100, none⟩ (fun n => (n : ℝ)) extractTargets_top100 ?_).1⟩
  intro i hi
  show ((0 : ℕ) : ℝ) < (i : ℝ)
  exact_mod_cast hi

end Rockport

namespace Rockport

theorem jsRem_nonneg_bounds (x y : ℝ) (hy : 0 < y) (hx : 0 ≤ x) :
    0 ≤ jsRem x y ∧ jsRem x y < y := by
  unfold jsRem jsTrunc
  rw [if_pos (div_nonneg hx hy.le)]
  have hkey : x - y * (⌊x / y⌋ : ℝ) = y * Int.fract (x / y) := by
    unfold Int.fract
    field_simp
  rw [hkey]
  constructor
  · exact mul_nonneg hy.le (Int.fract_nonneg _)
  · calc y * Int.fract (x / y) < y * 1 :=
        (mul_lt_mul_left hy).mpr (Int.fract_lt_one _)
    _ = y := mul_one y

theorem jsRem_neg_bounds (x y : ℝ) (hy : 0 < y) (hx : x < 0) :
    -y < jsRem x y ∧ jsRem x y ≤ 0 := by
  unfold jsRem jsTrunc
  rw [if_neg (not_le.mpr (div_neg_of_neg_of_pos hx hy))]
  have h1 : x / y ≤ (⌈x / y⌉ : ℝ) := Int.le_ceil _
  have h2 : (⌈x / y⌉ : ℝ) < x / y + 1 := Int.ceil_lt_add_one _
  constructor
  · have := (mul_lt_mul_left hy).mpr h2
    have hxy : y * (x / y) = x := by field_simp
    nlinarith
  · have := (mul_le_mul_left hy).mpr h1
    have hxy : y * (x / y) = x := by field_simp
    nlinarith

theorem jsNormalizeHeading_ico {x : ℝ} (hge : -Real.pi ≤ x) :
    jsNormalizeHeading x ∈ Set.Ico (-Real.pi) Real.pi := by
  unfold jsNormalizeHeading
  have h2pi : (0 : ℝ) < 2 * Real.pi := by positivity
  have hx : 0 ≤ x + Real.pi := by linarith
  obtain ⟨h1, h2⟩ := jsRem_nonneg_bounds (x + Real.pi) (2 * Real.pi) h2pi hx
  constructor <;> [linarith; linarith]

/-- C8 (amended): after every `Car.update`, the heading equals the
JavaScript-remainder normalization of the integrated heading; that
normalization maps any input into `(−3π, π)`, and maps inputs that are at
least `−π` into `[−π, π)`.  The claimed interval `(−π, π]` is not achieved:
`−π` is reachable and `π` is not, and inputs below `−π` keep a negative
remainder (the JavaScript `%` carries the dividend's sign). -/
theorem heading_normalization_range (cfg : CarConfig) (s : CarState)
    (ti bi si dt : ℝ) :
    (carUpdate cfg s ti bi si dt).heading ∈ Set.Ioo (-(3 * Real.pi)) Real.pi ∧
      ∀ x : ℝ, -Real.pi ≤ x →
        jsNormalizeHeading x ∈ Set.Ico (-Real.pi) Real.pi := by
  constructor
  · have hh : ∃ x, (carUpdate cfg s ti bi si dt).heading = jsNormalizeHeading x := ⟨_, rfl⟩
    obtain ⟨x, hx⟩ := hh
    rw [hx]
    unfold jsNormalizeHeading
    have h2pi : (0 : ℝ) < 2 * Real.pi := by positivity
    have hpi : (0 : ℝ) < Real.pi := Real.pi_pos
    by_cases hxe : 0 ≤ x + Real.pi
    · obtain ⟨h1, h2⟩ := jsRem_nonneg_bounds (x + Real.pi) (2 * Real.pi) h2pi hxe
      constructor <;> [linarith; linarith]
    · obtain ⟨h1, h2⟩ := jsRem_neg_bounds (x + Real.pi) (2 * Real.pi) h2pi (not_le.mp hxe)
      constructor <;> [linarith; linarith]
  · exact fun x hx => jsNormalizeHeading_ico hx

/-- Witness for C8 (amended): the second conjunct applied at heading 0. -/
theorem heading_normalization_range_witness :
    -Real.pi ≤ (0 : ℝ) ∧ jsNormalizeHeading 0 ∈ Set.Ico (-Real.pi) Real.pi := by
  have h0 : -Real.pi ≤ (0 : ℝ) := by
    have := Real.pi_pos
    linarith
  exact ⟨h0, (heading_normalization_range defaultCarConfig (initTestCar defaultCarConfig)
    0 0 0 1).2 0 h0⟩

end Rockport

namespace Rockport

theorem saturateWheel_zero (a b : ℝ) : saturateWheel 0 0 a b = (0, 0) := by
  unfold saturateWheel
  have h1 : (if a > 1 / 1000000 then ((0 : ℝ) / (a + 1 / 1000000)) ^ 2 else 0) = 0 := by
    rw [zero_div]
    simp
  have h2 : (if b > 1 / 1000000 then ((0 : ℝ) / (b + 1 / 1000000)) ^ 2 else 0) = 0 := by
    rw [zero_div]
    simp
  rw [h1, h2]
  norm_num

theorem carUpdate_heading_of_zero_forces (cfg : CarConfig) (s : CarState)
    (ti bi si dt : ℝ)
    (hL : (preSatData cfg s ti bi si dt).fLong = ⟨0, 0, 0, 0⟩)
    (hT : (preSatData cfg s ti bi si dt).fLat = ⟨0, 0, 0, 0⟩) :
    (carUpdate cfg s ti bi si dt).heading =
      jsNormalizeHeading (s.heading + s.angularVelocity * dt) := by
  simp only [carUpdate, hL, hT, saturateWheel_zero]
  norm_num

end Rockport

namespace Rockport

theorem cxState8_is_init :
    { initTestCar defaultCarConfig with heading := (-4 : ℝ) } = cxState8 := by
  simp only [initTestCar, defaultCarConfig, cxState8, CarConfig.idleRpm]
  norm_num

theorem vLong_cx8 :
    Vec2.dot cxState8.velocity ⟨Real.cos cxState8.heading, Real.sin cxState8.heading⟩ = 0 := by
  simp [cxState8, Vec2.dot]

theorem speed_cx8 : Vec2.len cxState8.velocity = 0 := by
  simp [cxState8, Vec2.len]

theorem updatePowertrain_cx8 (dt : ℝ) :
    updatePowertrain defaultCarConfig 0 0 dt cxState8 = cxState8 := by
  have hth : clamp (cxState8.throttle +
      (clamp 0 (-1) 1 - cxState8.throttle) * clamp (dt * 4) 0 1) (-1) 1 = 0 := by
    simp only [cxState8]
    norm_num [clamp]
  have hup : ¬((900 : ℝ) > CarConfig.upshiftRpm defaultCarConfig) := by
    have hpeak : (2500 : ℝ) ≤ CarConfig.peakRpm defaultCarConfig := peakRpm_ge _
    unfold CarConfig.upshiftRpm
    rw [if_pos (show (0 : ℝ) < defaultCarConfig.revLimiterRpm by norm_num [defaultCarConfig])]
    push_neg
    refine le_min (by nlinarith) ?_
    norm_num [defaultCarConfig]
  simp only [updatePowertrain]
  rw [hth]
  have hrt : reverseTransition cxState8.manualMode cxState8.reverseMode cxState8.gearIndex 0 |0|
      = (false, 0, 1) := by
    simp only [cxState8, reverseTransition]
    norm_num
  rw [hrt]
  have hrpm : engineRpmFrom defaultCarConfig
      (if (false, (0 : ℝ), (1 : ℤ)).1 = true then defaultCarConfig.reverseGearRatio
       else defaultCarConfig.gearRatios.getD (max 0 (false, (0 : ℝ), (1 : ℤ)).2.2).toNat 0)
      |0| cxState8.engineRpm = 900 := by
    unfold engineRpmFrom
    rw [if_neg]
    · simp only [cxState8]
      norm_num [CarConfig.idleRpm]
    · rintro ⟨-, habs⟩
      rw [abs_zero] at habs
      norm_num at habs
  rw [hrpm]
  have hcut : revLimiterCut defaultCarConfig.revLimiterRpm 900 (false, (0 : ℝ), (1 : ℤ)).2.1 =
      (false, 900, 0) := by
    unfold revLimiterCut
    rw [if_neg (by norm_num [defaultCarConfig])]
  rw [hcut]
  have hshift : autoShift defaultCarConfig cxState8.manualMode (false, (900 : ℝ), (0 : ℝ)).1
      (false, (900 : ℝ), (0 : ℝ)).2.1 (false, (900 : ℝ), (0 : ℝ)).2.2
      (false, (0 : ℝ), (1 : ℤ)).2.2 = 1 := by
    unfold autoShift
    rw [if_pos (by simp [cxState8]), if_neg (fun h => hup h.1), if_neg (by norm_num)]
  rw [hshift]
  simp [cxState8]

end Rockport

namespace Rockport

theorem computeLongitudinalForces_cx8 (dt : ℝ) :
    computeLongitudinalForces defaultCarConfig 0 dt 0 cxState8 =
      ⟨0, 0, ⟨0, 0, 0, 0⟩⟩ := by
  have hb : clamp (cxState8.brake + (0 - cxState8.brake) * clamp (dt * 6) 0 1) 0 1 = 0 := by
    simp only [cxState8]
    norm_num [clamp]
  simp only [computeLongitudinalForces]
  rw [hb]
  have hgr : (if cxState8.reverseMode = true then defaultCarConfig.reverseGearRatio
      else defaultCarConfig.gearRatios.getD (max 0 cxState8.gearIndex).toNat 0) = 3.54 := by
    simp only [cxState8]
    norm_num [defaultCarConfig]
  rw [hgr]
  have hmag : (if cxState8.reverseMode = true then |cxState8.throttle|
      else max cxState8.throttle 0) = 0 := by
    simp [cxState8]
  have hdrive : (if (3.54 : ℝ) > 0 then
      if torqueAtRpm defaultCarConfig cxState8.engineRpm *
          (if cxState8.reverseMode = true then |cxState8.throttle|
           else max cxState8.throttle 0) * defaultCarConfig.drivetrainEfficiency > 0 then
        if cxState8.reverseMode = true then
          -(torqueAtRpm defaultCarConfig cxState8.engineRpm *
            (if cxState8.reverseMode = true then |cxState8.throttle|
             else max cxState8.throttle 0) * defaultCarConfig.drivetrainEfficiency * 3.54 *
            defaultCarConfig.finalDriveRatio / (defaultCarConfig.wheelRadiusM + 1 / 1000000))
        else
          torqueAtRpm defaultCarConfig cxState8.engineRpm *
            (if cxState8.reverseMode = true then |cxState8.throttle|
             else max cxState8.throttle 0) * defaultCarConfig.drivetrainEfficiency * 3.54 *
            defaultCarConfig.finalDriveRatio / (defaultCarConfig.wheelRadiusM + 1 / 1000000)
      else 0
    else 0) = 0 := by
    rw [hmag]
    rw [if_pos (by norm_num)]
    rw [if_neg (by norm_num)]
  rw [hdrive]
  simp only [CarConfig.brakeTorque4, defaultCarConfig]
  norm_num [cxState8]

end Rockport

namespace Rockport

theorem cx8_lastLong : cxState8.lastLongitudinalAccel = 0 := rfl

theorem cx8_lastLat : cxState8.lastLateralAccel = 0 := rfl

theorem latGrip_default :
    CarConfig.latGrip defaultCarConfig = ⟨1.176, 1.176, 1.232, 1.232⟩ := by
  simp only [CarConfig.latGrip, CarConfig.longGrip, defaultCarConfig]
  norm_num

theorem preSat_cx8_fLong :
    (preSatData defaultCarConfig cxState8 0 0 0 (1 / 60)).fLong = ⟨0, 0, 0, 0⟩ := by
  simp only [preSatData, vLong_cx8, speed_cx8, updatePowertrain_cx8,
    computeLongitudinalForces_cx8]
  norm_num

theorem preSat_cx8_fLat :
    (preSatData defaultCarConfig cxState8 0 0 0 (1 / 60)).fLat = ⟨0, 0, 0, 0⟩ := by
  simp only [preSatData, vLong_cx8, speed_cx8, updatePowertrain_cx8,
    computeLongitudinalForces_cx8, cx8_lastLong, cx8_lastLat, latGrip_default]
  norm_num [clamp, gravity, defaultCarConfig]

end Rockport

namespace Rockport

theorem jsNormalizeHeading_neg4 : jsNormalizeHeading (-4) = -4 := by
  unfold jsNormalizeHeading jsRem jsTrunc
  have hpi_lt : Real.pi < 3.15 := by
    have := Real.pi_lt_d2
    linarith
  have hpi_gt : (3 : ℝ) < Real.pi := by
    have := Real.pi_gt_three
    linarith
  have h2pi : (0 : ℝ) < 2 * Real.pi := by positivity
  have hnum : (-4 : ℝ) + Real.pi < 0 := by linarith
  have hcond : ¬(0 ≤ ((-4 : ℝ) + Real.pi) / (2 * Real.pi)) :=
    not_le.mpr (div_neg_of_neg_of_pos hnum h2pi)
  rw [if_neg hcond]
  have hceil : ⌈((-4 : ℝ) + Real.pi) / (2 * Real.pi)⌉ = 0 := by
    rw [Int.ceil_eq_zero_iff]
    constructor
    · show (-1 : ℝ) < ((-4 : ℝ) + Real.pi) / (2 * Real.pi)
      rw [lt_div_iff₀ h2pi]
      linarith
    · show ((-4 : ℝ) + Real.pi) / (2 * Real.pi) ≤ 0
      exact le_of_lt (div_neg_of_neg_of_pos hnum h2pi)
  rw [hceil]
  push_cast
  ring

/-- Counterexample to C8 as stated: a freshly constructed default car at
rest with initial heading `−4` keeps heading `−4` after one `Car.update`
with zero inputs — outside the claimed interval `(−π, π]` (the JavaScript
`%` does not normalize headings below `−π`). -/
theorem heading_range_counterexample :
    ({ initTestCar defaultCarConfig with heading := (-4 : ℝ) } = cxState8) ∧
      (carUpdate defaultCarConfig cxState8 0 0 0 (1 / 60)).heading = -4 ∧
      (carUpdate defaultCarConfig cxState8 0 0 0 (1 / 60)).heading ∉
        Set.Ioc (-Real.pi) Real.pi := by
  have hval : (carUpdate defaultCarConfig cxState8 0 0 0 (1 / 60)).heading = -4 := by
    rw [carUpdate_heading_of_zero_forces defaultCarConfig cxState8 0 0 0 (1 / 60)
      preSat_cx8_fLong preSat_cx8_fLat]
    have harg : cxState8.heading + cxState8.angularVelocity * (1 / 60) = -4 := by
      simp [cxState8]
    rw [harg, jsNormalizeHeading_neg4]
  refine ⟨cxState8_is_init, hval, ?_⟩
  rw [hval]
  rintro ⟨hlt, -⟩
  have hpi_lt : Real.pi < 3.15 := by
    have := Real.pi_lt_d2
    linarith
  linarith

end Rockport

namespace Rockport

/-- C9 (amended): the low-speed settle of `Car.update` zeroes the state
exactly when the brake is *engaged*: whenever the tick-start speed and the
smoothed throttle magnitude are under their small thresholds and the
smoothed brake level exceeds 0.1, the velocity is halved, and once the
halved speed is under the stop threshold the velocity becomes exactly
`(0, 0)` and the angular velocity exactly `0`.  (`Car.update` feeds its
integrated velocity and angular velocity through `applySettle` with exactly
these arguments, as the second conjunct records.) -/
theorem low_speed_settle_exact_zero (speed throttle brake : ℝ) (v : Vec2) (ω : ℝ)
    (h1 : speed < 0.2) (h2 : |throttle| < 0.05) (h3 : brake > 0.1)
    (h4 : Vec2.len (Vec2.scale v 0.5) < 0.05) :
    applySettle speed throttle brake v ω = (⟨0, 0⟩, 0) ∧
      ∀ (cfg : CarConfig) (s : CarState) (ti bi si dt : ℝ), ∃ v1 ω1,
        (carUpdate cfg s ti bi si dt).velocity =
          (applySettle (preSatData cfg s ti bi si dt).speed
            (preSatData cfg s ti bi si dt).s1.throttle
            (preSatData cfg s ti bi si dt).longF.brake v1 ω1).1 ∧
        (carUpdate cfg s ti bi si dt).angularVelocity =
          (applySettle (preSatData cfg s ti bi si dt).speed
            (preSatData cfg s ti bi si dt).s1.throttle
            (preSatData cfg s ti bi si dt).longF.brake v1 ω1).2 := by
  constructor
  · unfold applySettle
    rw [if_pos ⟨h1, h2, h3⟩, if_pos h4]
  · exact fun cfg s ti bi si dt => ⟨_, _, rfl, rfl⟩

/-- Witness for C9 (amended): full brake at rest. -/
theorem low_speed_settle_exact_zero_witness :
    (0 : ℝ) < 0.2 ∧ |(0 : ℝ)| < 0.05 ∧ (1 : ℝ) > 0.1 ∧
      applySettle 0 0 1 ⟨0, 0⟩ 0 = (⟨0, 0⟩, 0) := by
  have h4 : Vec2.len (Vec2.scale ⟨0, 0⟩ 0.5) < 0.05 := by
    simp [Vec2.len, Vec2.scale]
    norm_num
  exact ⟨by norm_num, by norm_num, by norm_num,
    (low_speed_settle_exact_zero 0 0 1 ⟨0, 0⟩ 0 (by norm_num) (by norm_num) (by norm_num) h4).1⟩

end Rockport

namespace Rockport

theorem cxState9_is_init :
    { initTestCar defaultCarConfig with velocity := (⟨1 / 100, 0⟩ : Vec2) } = cxState9 := by
  simp only [initTestCar, defaultCarConfig, cxState9, CarConfig.idleRpm]
  norm_num

theorem cx9_lastLong : cxState9.lastLongitudinalAccel = 0 := rfl

theorem cx9_lastLat : cxState9.lastLateralAccel = 0 := rfl

theorem cx9_heading : cxState9.heading = 0 := rfl

theorem vLong_cx9 :
    Vec2.dot cxState9.velocity ⟨Real.cos cxState9.heading, Real.sin cxState9.heading⟩ =
      1 / 100 := by
  simp [cxState9, Vec2.dot]

theorem speed_cx9 : Vec2.len cxState9.velocity = 1 / 100 := by
  simp only [cxState9, Vec2.len]
  rw [show ((1 : ℝ) / 100) ^ 2 + 0 ^ 2 = (1 / 100) ^ 2 by norm_num]
  exact Real.sqrt_sq (by norm_num)

theorem updatePowertrain_cx9 (dt : ℝ) :
    updatePowertrain defaultCarConfig 0 (1 / 100) dt cxState9 = cxState9 := by
  have hth : clamp (cxState9.throttle +
      (clamp 0 (-1) 1 - cxState9.throttle) * clamp (dt * 4) 0 1) (-1) 1 = 0 := by
    simp only [cxState9]
    norm_num [clamp]
  have hup : ¬((900 : ℝ) > CarConfig.upshiftRpm defaultCarConfig) := by
    have hpeak : (2500 : ℝ) ≤ CarConfig.peakRpm defaultCarConfig := peakRpm_ge _
    unfold CarConfig.upshiftRpm
    rw [if_pos (show (0 : ℝ) < defaultCarConfig.revLimiterRpm by norm_num [defaultCarConfig])]
    push_neg
    refine le_min (by nlinarith) ?_
    norm_num [defaultCarConfig]
  simp only [updatePowertrain]
  rw [hth]
  have hrt : reverseTransition cxState9.manualMode cxState9.reverseMode cxState9.gearIndex 0
      |(1 : ℝ) / 100| = (false, 0, 1) := by
    simp only [cxState9, reverseTransition]
    norm_num
  rw [hrt]
  have hrpm : engineRpmFrom defaultCarConfig
      (if (false, (0 : ℝ), (1 : ℤ)).1 = true then defaultCarConfig.reverseGearRatio
       else defaultCarConfig.gearRatios.getD (max 0 (false, (0 : ℝ), (1 : ℤ)).2.2).toNat 0)
      |(1 : ℝ) / 100| cxState9.engineRpm = 900 := by
    unfold engineRpmFrom
    rw [if_neg]
    · simp only [cxState9]
      norm_num [CarConfig.idleRpm]
    · rintro ⟨-, habs⟩
      rw [show |(1 : ℝ) / 100| = 1 / 100 from abs_of_pos (by norm_num)] at habs
      norm_num at habs
  rw [hrpm]
  have hcut : revLimiterCut defaultCarConfig.revLimiterRpm 900 (false, (0 : ℝ), (1 : ℤ)).2.1 =
      (false, 900, 0) := by
    unfold revLimiterCut
    rw [if_neg (by norm_num [defaultCarConfig])]
  rw [hcut]
  have hshift : autoShift defaultCarConfig cxState9.manualMode (false, (900 : ℝ), (0 : ℝ)).1
      (false, (900 : ℝ), (0 : ℝ)).2.1 (false, (900 : ℝ), (0 : ℝ)).2.2
      (false, (0 : ℝ), (1 : ℤ)).2.2 = 1 := by
    unfold autoShift
    rw [if_pos (by simp [cxState9]), if_neg (fun h => hup h.1), if_neg (by norm_num)]
  rw [hshift]
  simp [cxState9]

theorem computeLongitudinalForces_cx9 (dt v : ℝ) :
    computeLongitudinalForces defaultCarConfig 0 dt v cxState9 =
      ⟨0, 0, ⟨0, 0, 0, 0⟩⟩ := by
  have hb : clamp (cxState9.brake + (0 - cxState9.brake) * clamp (dt * 6) 0 1) 0 1 = 0 := by
    simp only [cxState9]
    norm_num [clamp]
  simp only [computeLongitudinalForces]
  rw [hb]
  have hgr : (if cxState9.reverseMode = true then defaultCarConfig.reverseGearRatio
      else defaultCarConfig.gearRatios.getD (max 0 cxState9.gearIndex).toNat 0) = 3.54 := by
    simp only [cxState9]
    norm_num [defaultCarConfig]
  rw [hgr]
  have hmag : (if cxState9.reverseMode = true then |cxState9.throttle|
      else max cxState9.throttle 0) = 0 := by
    simp [cxState9]
  have hdrive : (if (3.54 : ℝ) > 0 then
      if torqueAtRpm defaultCarConfig cxState9.engineRpm *
          (if cxState9.reverseMode = true then |cxState9.throttle|
           else max cxState9.throttle 0) * defaultCarConfig.drivetrainEfficiency > 0 then
        if cxState9.reverseMode = true then
          -(torqueAtRpm defaultCarConfig cxState9.engineRpm *
            (if cxState9.reverseMode = true then |cxState9.throttle|
             else max cxState9.throttle 0) * defaultCarConfig.drivetrainEfficiency * 3.54 *
            defaultCarConfig.finalDriveRatio / (defaultCarConfig.wheelRadiusM + 1 / 1000000))
        else
          torqueAtRpm defaultCarConfig cxState9.engineRpm *
            (if cxState9.reverseMode = true then |cxState9.throttle|
             else max cxState9.throttle 0) * defaultCarConfig.drivetrainEfficiency * 3.54 *
            defaultCarConfig.finalDriveRatio / (defaultCarConfig.wheelRadiusM + 1 / 1000000)
      else 0
    else 0) = 0 := by
    rw [hmag]
    rw [if_pos (by norm_num)]
    rw [if_neg (by norm_num)]
  rw [hdrive]
  simp only [CarConfig.brakeTorque4, defaultCarConfig]
  norm_num [cxState9]

theorem preSat_cx9_fLong :
    (preSatData defaultCarConfig cxState9 0 0 0 (1 / 200)).fLong = ⟨0, 0, 0, 0⟩ := by
  simp only [preSatData, vLong_cx9, speed_cx9, updatePowertrain_cx9,
    computeLongitudinalForces_cx9]
  norm_num

set_option maxHeartbeats 1000000 in
theorem abs_one_hundredth : |(1 : ℝ) / 100| = 1 / 100 := abs_of_pos (by norm_num)

set_option maxHeartbeats 1000000 in
theorem preSat_cx9_fLat :
    (preSatData defaultCarConfig cxState9 0 0 0 (1 / 200)).fLat = ⟨0, 0, 0, 0⟩ := by
  simp only [preSatData, vLong_cx9, speed_cx9, updatePowertrain_cx9,
    computeLongitudinalForces_cx9, cx9_lastLong, cx9_lastLat, latGrip_default,
    abs_one_hundredth]
  norm_num [clamp, gravity, defaultCarConfig, computeAeroForces, airDensity]

theorem preSat_cx9_speed :
    (preSatData defaultCarConfig cxState9 0 0 0 (1 / 200)).speed = 1 / 100 := by
  simp only [preSatData, speed_cx9]

theorem preSat_cx9_throttle :
    (preSatData defaultCarConfig cxState9 0 0 0 (1 / 200)).s1.throttle = 0 := by
  simp only [preSatData, vLong_cx9, updatePowertrain_cx9]
  rfl

set_option maxHeartbeats 1000000 in
theorem preSat_cx9_brake :
    (preSatData defaultCarConfig cxState9 0 0 0 (1 / 200)).longF.brake = 0 := by
  simp only [preSatData, vLong_cx9, updatePowertrain_cx9, computeLongitudinalForces_cx9]

theorem preSat_cx9_drag :
    (preSatData defaultCarConfig cxState9 0 0 0 (1 / 200)).dragForce =
      0.5 * 1.225 * 0.32 * 2.2 * (1 / 100) * (1 / 100) := by
  simp only [preSatData, vLong_cx9, speed_cx9, computeAeroForces]
  rw [if_neg (by norm_num)]
  norm_num [defaultCarConfig, airDensity]

end Rockport

namespace Rockport

theorem vecnorm_cx9 : Vec2.normalize cxState9.velocity = ⟨1, 0⟩ := by
  simp only [Vec2.normalize, speed_cx9]
  rw [if_neg (by norm_num)]
  simp only [cxState9]
  norm_num

set_option maxHeartbeats 1000000 in
theorem carUpdate_cx9_velocity :
    (carUpdate defaultCarConfig cxState9 0 0 0 (1 / 200)).velocity =
      ⟨33582905711 / 3625000000000, 0⟩ := by
  simp only [carUpdate, preSat_cx9_fLong, preSat_cx9_fLat, saturateWheel_zero,
    preSat_cx9_speed, preSat_cx9_throttle, preSat_cx9_brake, preSat_cx9_drag,
    cx9_heading, vecnorm_cx9, Real.cos_zero, Real.sin_zero, applySettle]
  norm_num [Vec2.addScaled, gravity, defaultCarConfig, cxState9]

/-- Counterexample to C9 as stated: a default car coasting straight at
1 cm/s with zero throttle and zero brake — speed, throttle magnitude, and
brake level all under the small thresholds — is *not* damped to zero by
`Car.update`: the settle branch requires `brake > 0.1`, so the velocity
stays nonzero even though its halved magnitude is far below the stop
threshold. -/
theorem low_speed_settle_counterexample :
    ({ initTestCar defaultCarConfig with velocity := (⟨1 / 100, 0⟩ : Vec2) } = cxState9) ∧
      Vec2.len cxState9.velocity < 0.2 ∧
      |(carUpdate defaultCarConfig cxState9 0 0 0 (1 / 200)).throttle| < 0.05 ∧
      (carUpdate defaultCarConfig cxState9 0 0 0 (1 / 200)).brake < 0.1 ∧
      Vec2.len (Vec2.scale (carUpdate defaultCarConfig cxState9 0 0 0 (1 / 200)).velocity 0.5)
        < 0.05 ∧
      (carUpdate defaultCarConfig cxState9 0 0 0 (1 / 200)).velocity ≠ (⟨0, 0⟩ : Vec2) := by
  have hth : (carUpdate defaultCarConfig cxState9 0 0 0 (1 / 200)).throttle =
      (preSatData defaultCarConfig cxState9 0 0 0 (1 / 200)).s1.throttle := rfl
  have hbr : (carUpdate defaultCarConfig cxState9 0 0 0 (1 / 200)).brake =
      (preSatData defaultCarConfig cxState9 0 0 0 (1 / 200)).longF.brake := rfl
  refine ⟨cxState9_is_init, ?_, ?_, ?_, ?_, ?_⟩
  · rw [speed_cx9]; norm_num
  · rw [hth, preSat_cx9_throttle]; norm_num
  · rw [hbr, preSat_cx9_brake]; norm_num
  · rw [carUpdate_cx9_velocity]
    simp only [Vec2.scale, Vec2.len]
    rw [show (33582905711 / 3625000000000 * 0.5 : ℝ) ^ 2 + (0 * 0.5 : ℝ) ^ 2 =
      (33582905711 / 7250000000000 : ℝ) ^ 2 by norm_num]
    rw [Real.sqrt_sq (by norm_num)]
    norm_num
  · rw [carUpdate_cx9_velocity]
    intro h
    have hx := congrArg Vec2.x h
    norm_num at hx

end Rockport
